import Mathlib

/-!
Verification development for the will-generator repository.

Shallow embedding of the core pipeline:
  app/context_builder.py  (build_context and its entity dataclasses)
  app/clause_logic.py     (clause catalogue, dependency table, selection)
  app/clause_renderer.py  (attestation renderer, document plan items)
  app/pdf_generator.py    (two-pass PDF compile, footer, hash verification)

Python dynamic values are modelled by the inductive type `Value`
(Python None / bool / int-float / str / list / dict).  Python floats are
modelled as exact rationals; the claims settled here do not depend on
floating-point rounding.  Statements that can raise at runtime
(attribute errors on a non-dict receiver, iterating a non-iterable,
adding a non-number) are modelled in the `Except PyErr` monad, mirroring
the source statement by statement.
-/

/-- Python runtime errors that the embedded code can raise. -/
inductive PyErr where
  | attributeError
  | typeError
deriving DecidableEq

/-- A Python value: None, bool, number (int and float collapsed into an
exact rational), string, list, or dict (association list keyed by
strings, as produced by JSON-style payloads). -/
inductive Value where
  | none
  | bool (b : Bool)
  | num (q : Rat)
  | str (s : String)
  | list (xs : List Value)
  | dict (xs : List (String × Value))

/-- Python truthiness: None, False, 0, empty string/list/dict are falsy. -/
def Value.truthy : Value → Bool
  | .none => false
  | .bool b => b
  | .num q => decide (q ≠ 0)
  | .str s => decide (s ≠ "")
  | .list xs => !xs.isEmpty
  | .dict xs => !xs.isEmpty

mutual

/-- Python equality (==) on values.  True == 1 holds because bool is a
numeric type in Python.  Dict equality is modelled as ordered
association-list equality; the embedded source never compares dicts. -/
def pyEq : Value → Value → Bool
  | .none, .none => true
  | .bool a, .bool b => a == b
  | .bool a, .num q => (if a then (1 : Rat) else 0) == q
  | .num q, .bool a => q == (if a then (1 : Rat) else 0)
  | .num a, .num b => a == b
  | .str a, .str b => a == b
  | .list a, .list b => pyEqList a b
  | .dict a, .dict b => pyEqDict a b
  | _, _ => false

def pyEqList : List Value → List Value → Bool
  | [], [] => true
  | a :: as, b :: bs => pyEq a b && pyEqList as bs
  | _, _ => false

def pyEqDict : List (String × Value) → List (String × Value) → Bool
  | [], [] => true
  | (k, a) :: as, (l, b) :: bs => k == l && pyEq a b && pyEqDict as bs
  | _, _ => false

end

/-- Association-list lookup, modelling Python dict key lookup. -/
def alget : List (String × Value) → String → Option Value
  | [], _ => Option.none
  | (k, v) :: rest, key => if k = key then some v else alget rest key

/-- Python `d.get(key, default)` on an arbitrary value: raises
AttributeError unless the receiver is a dict. -/
def Value.get : Value → String → Value → Except PyErr Value
  | .dict xs, key, dflt => .ok ((alget xs key).getD dflt)
  | _, _, _ => .error .attributeError

/-- `payload.get(key, default)` on the top-level payload, which the
contract fixes to be a mapping, so this lookup cannot raise. -/
def pget (p : List (String × Value)) (k : String) (d : Value) : Value :=
  (alget p k).getD d

/-- Python iteration (`for x in v`): lists yield elements, strings yield
one-character strings, dicts yield their keys; other values raise
TypeError. -/
def Value.iterate : Value → Except PyErr (List Value)
  | .list xs => .ok xs
  | .str s => .ok (s.data.map (fun c => .str (String.mk [c])))
  | .dict xs => .ok (xs.map (fun kv => .str kv.1))
  | _ => .error .typeError

/-- Python numeric coercion for `+`: int/float and bool are numbers. -/
def Value.toNum? : Value → Option Rat
  | .num q => some q
  | .bool b => some (if b then 1 else 0)
  | _ => Option.none

/-- `acc += v` on a float accumulator: TypeError unless v is numeric. -/
def pyAdd (acc : Rat) (v : Value) : Except PyErr Rat :=
  match v.toNum? with
  | some q => .ok (acc + q)
  | Option.none => .error .typeError

/-- Python `x in [a, b, ...]` membership against a list of values. -/
def pyMem (v : Value) (xs : List Value) : Bool :=
  xs.any (fun x => pyEq v x)

/-! ## Entities of app/context_builder.py -/

/-- Structured address (context_builder.Address). -/
structure Address where
  street : Value := .str ""
  suburb : Value := .str ""
  state : Value := .str ""
  postcode : Value := .str ""

/-- Address.from_dict: falsy data gives the default instance. -/
def Address.from_dict (data : Value) : Except PyErr Address := do
  if !data.truthy then
    return {}
  let street ← data.get "street" (.str "")
  let suburb ← data.get "suburb" (.str "")
  let state ← data.get "state" (.str "")
  let postcode ← data.get "postcode" (.str "")
  return { street := street, suburb := suburb, state := state, postcode := postcode }

/-- Will maker entity (context_builder.WillMaker). -/
structure WillMaker where
  full_name : Value := .str ""
  dob : Value := .none
  occupation : Value := .str ""
  address : Address := {}
  email : Value := .str ""
  phone : Value := .str ""
  relationship_status : Value := .str ""

def WillMaker.from_dict (data : Value) : Except PyErr WillMaker := do
  if !data.truthy then
    return {}
  let full_name ← data.get "full_name" (.str "")
  let dob ← data.get "dob" .none
  let occupation ← data.get "occupation" (.str "")
  let addr ← Address.from_dict (← data.get "address" (.dict []))
  let email ← data.get "email" (.str "")
  let phone ← data.get "phone" (.str "")
  let rs ← data.get "relationship_status" (.str "")
  return { full_name := full_name, dob := dob, occupation := occupation,
           address := addr, email := email, phone := phone,
           relationship_status := rs }

/-- Partner entity (context_builder.Partner). -/
structure Partner where
  full_name : Value := .str ""
  dob : Value := .none
  address : Address := {}
  email : Value := .str ""
  phone : Value := .str ""

def Partner.from_dict (data : Value) : Except PyErr Partner := do
  if !data.truthy then
    return {}
  let full_name ← data.get "full_name" (.str "")
  let dob ← data.get "dob" .none
  let addr ← Address.from_dict (← data.get "address" (.dict []))
  let email ← data.get "email" (.str "")
  let phone ← data.get "phone" (.str "")
  return { full_name := full_name, dob := dob, address := addr,
           email := email, phone := phone }

/-- Child entity (context_builder.Child). -/
structure Child where
  full_name : Value := .str ""
  dob : Value := .none
  relationship_type : Value := .str ""
  is_expected_to_be_minor_at_death : Value := .bool false
  special_needs : Value := .bool false

def Child.from_dict (data : Value) : Except PyErr Child := do
  if !data.truthy then
    return {}
  let full_name ← data.get "full_name" (.str "")
  let dob ← data.get "dob" .none
  let relationship_type ← data.get "relationship_type" (.str "")
  let minor ← data.get "is_expected_to_be_minor_at_death" (.bool false)
  let special ← data.get "special_needs" (.bool false)
  return { full_name := full_name, dob := dob,
           relationship_type := relationship_type,
           is_expected_to_be_minor_at_death := minor,
           special_needs := special }

/-- Other dependant entity (context_builder.Dependant). -/
structure Dependant where
  full_name : Value := .str ""
  relationship_category : Value := .str ""

def Dependant.from_dict (data : Value) : Except PyErr Dependant := do
  if !data.truthy then
    return {}
  let full_name ← data.get "full_name" (.str "")
  let cat ← data.get "relationship_category" (.str "")
  return { full_name := full_name, relationship_category := cat }

/-- Executor entity (context_builder.Executor). -/
structure Executor where
  full_name : Value := .str ""
  relationship : Value := .str ""
  address : Address := {}
  phone : Value := .str ""
  email : Value := .str ""

def Executor.from_dict (data : Value) : Except PyErr Executor := do
  if !data.truthy then
    return {}
  let full_name ← data.get "full_name" (.str "")
  let relationship ← data.get "relationship" (.str "")
  let addr ← Address.from_dict (← data.get "address" (.dict []))
  let phone ← data.get "phone" (.str "")
  let email ← data.get "email" (.str "")
  return { full_name := full_name, relationship := relationship,
           address := addr, phone := phone, email := email }

/-- Guardian entity (context_builder.Guardian). -/
structure Guardian where
  full_name : Value := .str ""
  relationship : Value := .str ""
  address : Address := {}
  phone : Value := .str ""

def Guardian.from_dict (data : Value) : Except PyErr Guardian := do
  if !data.truthy then
    return {}
  let full_name ← data.get "full_name" (.str "")
  let relationship ← data.get "relationship" (.str "")
  let addr ← Address.from_dict (← data.get "address" (.dict []))
  let phone ← data.get "phone" (.str "")
  return { full_name := full_name, relationship := relationship,
           address := addr, phone := phone }

/-- Beneficiary entity (context_builder.Beneficiary). -/
structure Beneficiary where
  id : Value := .str ""
  type : Value := .str "individual"
  full_name : Value := .str ""
  relationship : Value := .str ""
  address : Address := {}
  abn : Value := .str ""
  gift_role : Value := .str ""
  residue_share_percent : Value := .none
  percentage : Value := .none
  cash_amount : Value := .none
  item_description : Value := .str ""

/-- Beneficiary.from_dict(data, index): the id defaults to
"beneficiary_index" only when the data is truthy but carries no id. -/
def Beneficiary.from_dict (data : Value) (index : Nat) : Except PyErr Beneficiary := do
  if !data.truthy then
    return {}
  let bid ← data.get "id" (.str ("beneficiary_" ++ toString index))
  let btype ← data.get "type" (.str "individual")
  let full_name ← data.get "full_name" (.str "")
  let relationship ← data.get "relationship" (.str "")
  let addr ← Address.from_dict (← data.get "address" (.dict []))
  let abn ← data.get "abn" (.str "")
  let gift_role ← data.get "gift_role" (.str "")
  let rsp ← data.get "residue_share_percent" .none
  let percentage ← data.get "percentage" .none
  let cash_amount ← data.get "cash_amount" .none
  let item_description ← data.get "item_description" (.str "")
  return { id := bid, type := btype, full_name := full_name,
           relationship := relationship, address := addr, abn := abn,
           gift_role := gift_role, residue_share_percent := rsp,
           percentage := percentage, cash_amount := cash_amount,
           item_description := item_description }

/-- Derived specific gift (context_builder.SpecificGift). -/
structure SpecificGift where
  beneficiary_id : Value := .str ""
  beneficiary_name : Value := .str ""
  gift_type : Value := .str ""
  cash_amount : Value := .none
  item_description : Value := .str ""

/-- Derived residue beneficiary (context_builder.ResidueBeneficiary). -/
structure ResidueBeneficiary where
  beneficiary_id : Value := .str ""
  beneficiary_name : Value := .str ""
  share_percent : Value := .none

/-- Business interest entity (context_builder.BusinessInterest). -/
structure BusinessInterest where
  interest_type : Value := .str ""
  entity_name : Value := .str ""
  acn : Value := .str ""
  abn : Value := .str ""
  recipient_mode : Value := .str ""
  recipient_id : Value := .none
  recipient_name : Value := .str ""
  recipient_address : Address := {}

/-- Linear lookup of a beneficiary by id, as in the for/break loops of
BusinessInterest.from_dict, pet-carer and alternate-beneficiary
resolution: the first match wins, no match leaves the default. -/
def findBeneficiary (bens : List Beneficiary) (wanted : Value) : Option Beneficiary :=
  bens.find? (fun b => pyEq b.id wanted)

def BusinessInterest.from_dict (data : Value) (beneficiaries : List Beneficiary) :
    Except PyErr BusinessInterest := do
  if !data.truthy then
    return {}
  let recipient_mode ← data.get "recipient_mode" (.str "")
  let recipient_id ← data.get "recipient_id" .none
  let mut recipient_name : Value := .str ""
  let mut recipient_address : Address := {}
  if pyEq recipient_mode (.str "select_beneficiary") && recipient_id.truthy then
    match findBeneficiary beneficiaries recipient_id with
    | some b =>
        recipient_name := b.full_name
        recipient_address := b.address
    | Option.none => pure ()
  else if pyEq recipient_mode (.str "new_person") then
    let recipient ← data.get "recipient" (.dict [])
    recipient_name ← recipient.get "full_name" (.str "")
    recipient_address ← Address.from_dict (← recipient.get "address" (.dict []))
  let interest_type ← data.get "interest_type" (.str "")
  let entity_name ← data.get "entity_name" (.str "")
  let acn ← data.get "acn" (.str "")
  let abn ← data.get "abn" (.str "")
  return { interest_type := interest_type, entity_name := entity_name,
           acn := acn, abn := abn, recipient_mode := recipient_mode,
           recipient_id := recipient_id, recipient_name := recipient_name,
           recipient_address := recipient_address }

/-- Exclusion entity (context_builder.Exclusion). -/
structure Exclusion where
  person_name : Value := .str ""
  category : Value := .str ""
  reasons : Value := .list []
  other_note : Value := .str ""

def Exclusion.from_dict (data : Value) : Except PyErr Exclusion := do
  if !data.truthy then
    return {}
  let person_name ← data.get "person_name" (.str "")
  let category ← data.get "category" (.str "")
  let reasons ← data.get "reasons" (.list [])
  let other_note ← data.get "other_note" (.str "")
  return { person_name := person_name, category := category,
           reasons := reasons, other_note := other_note }

/-! ## WillContext and build_context (app/context_builder.py) -/

/-- Complete context object for will generation
(context_builder.WillContext).  Entity lists, derived boolean flags and
derived counts exactly as in the dataclass; flags that the dataclass
types as bool stay Bool, payload-derived fields stay Value. -/
structure WillContext where
  will_maker : WillMaker := {}
  partner : Option Partner := Option.none
  separation : Value := .dict []
  children : List Child := []
  other_dependants : List Dependant := []
  executors : List Executor := []
  backup_executors : List Executor := []
  guardian : Option Guardian := Option.none
  backup_guardian : Option Guardian := Option.none
  beneficiaries : List Beneficiary := []
  specific_gifts : List SpecificGift := []
  residue_beneficiaries : List ResidueBeneficiary := []
  business_interests : List BusinessInterest := []
  exclusions : List Exclusion := []
  distribution_scheme : Value := .str ""
  survivorship_days : Value := .num 30
  substitution_rule : Value := .str ""
  alternate_beneficiary_id : Value := .none
  alternate_beneficiary_name : Value := .str ""
  minor_trusts_enabled : Bool := false
  minor_trusts_vesting_age : Value := .num 18
  minor_trusts_trustee_mode : Value := .str ""
  minor_trusts_trustee : Option Executor := Option.none
  funeral_enabled : Bool := false
  funeral_preference : Value := .str ""
  funeral_notes : Value := .str ""
  digital_assets_enabled : Bool := false
  digital_assets_authority : Value := .bool false
  digital_assets_categories : Value := .list []
  digital_assets_instructions_location : Value := .str ""
  pets_enabled : Bool := false
  pets_count : Value := .num 0
  pets_summary : Value := .str ""
  pets_carer_mode : Value := .str ""
  pets_carer_name : Value := .str ""
  pets_carer_address : Address := {}
  pets_cash_gift : Value := .none
  business_enabled : Bool := false
  exclusion_enabled : Bool := false
  life_sustaining_enabled : Bool := false
  life_sustaining_template : Value := .str ""
  life_sustaining_values : Value := .list []
  assets : Value := .dict []
  intended_signing_date : Value := .none
  has_partner : Bool := false
  has_children : Bool := false
  has_minor_children : Bool := false
  has_guardianship : Bool := false
  has_specific_gifts : Bool := false
  has_residue_scheme : Bool := false
  has_percentages : Bool := false
  has_exclusions : Bool := false
  has_digital_assets : Bool := false
  has_pets : Bool := false
  has_business_interests : Bool := false
  has_funeral_wishes : Bool := false
  has_life_sustaining_statement : Bool := false
  has_minor_trusts : Bool := false
  has_substitution : Bool := false
  has_alternate_beneficiary : Bool := false
  beneficiary_count : Nat := 0
  minor_beneficiary_count : Nat := 0
  percentage_sum : Rat := 0
  executor_count : Nat := 0

/-- Indexed monadic map, modelling `[f(x, i) for i, x in enumerate(xs)]`
with a fallible body. -/
def mapIdxM (f : Value → Nat → Except PyErr Beneficiary) :
    List Value → Nat → Except PyErr (List Beneficiary)
  | [], _ => .ok []
  | x :: rest, i => do
    let b ← f x i
    let bs ← mapIdxM f rest (i + 1)
    return b :: bs

/-- The one-pass loop of build_context over context.beneficiaries:
appends a SpecificGift for each specific_cash / specific_item role, a
ResidueBeneficiary for each residue role, sets has_specific_gifts, and
accumulates percentage_sum over every beneficiary whose percentage field
is not None (`context.percentage_sum += b.percentage`, which raises
TypeError on a non-numeric percentage). -/
def giftStep (acc : List SpecificGift × List ResidueBeneficiary × Bool × Rat)
    (b : Beneficiary) :
    Except PyErr (List SpecificGift × List ResidueBeneficiary × Bool × Rat) := do
  let (gifts, residue, hasG, psum) := acc
  let (gifts, residue, hasG) :=
    if pyEq b.gift_role (.str "specific_cash") then
      (gifts ++ [{ beneficiary_id := b.id, beneficiary_name := b.full_name,
                   gift_type := .str "cash", cash_amount := b.cash_amount }],
       residue, true)
    else if pyEq b.gift_role (.str "specific_item") then
      (gifts ++ [{ beneficiary_id := b.id, beneficiary_name := b.full_name,
                   gift_type := .str "item",
                   item_description := b.item_description }],
       residue, true)
    else if pyEq b.gift_role (.str "residue") then
      (gifts,
       residue ++ [{ beneficiary_id := b.id, beneficiary_name := b.full_name,
                     share_percent := b.residue_share_percent }],
       hasG)
    else
      (gifts, residue, hasG)
  let psum ←
    match b.percentage with
    | .none => pure psum
    | p => pyAdd psum p
  return (gifts, residue, hasG, psum)

def giftLoop (bs : List Beneficiary) (gifts : List SpecificGift)
    (residue : List ResidueBeneficiary) (hasG : Bool) (psum : Rat) :
    Except PyErr (List SpecificGift × List ResidueBeneficiary × Bool × Rat) :=
  bs.foldlM giftStep (gifts, residue, hasG, psum)

/-!
build_context is translated section by section: one step function per
commented section of the Python source, chained in source order.  Each
step takes the payload and the context built so far and returns the
updated context (or the Python error the section would raise).
-/

/-- Section "Build will maker". -/
def bcWillMaker (payload : List (String × Value)) (c : WillContext) :
    Except PyErr WillContext := do
  let wm ← WillMaker.from_dict (pget payload "will_maker" (.dict []))
  return { c with will_maker := wm }

/-- Sections "Build partner if applicable" and "Separation details". -/
def bcPartner (payload : List (String × Value)) (c : WillContext) :
    Except PyErr WillContext := do
  let relationship_status := c.will_maker.relationship_status
  let c := { c with has_partner := pyMem relationship_status [.str "married", .str "de_facto"] }
  let c ←
    if c.has_partner then do
      let p ← Partner.from_dict (pget payload "partner" (.dict []))
      pure { c with partner := some p }
    else
      pure c
  if pyEq relationship_status (.str "separated") then
    return { c with separation := pget payload "separation" (.dict []) }
  return c

/-- Section "Build children". -/
def bcChildren (payload : List (String × Value)) (c : WillContext) :
    Except PyErr WillContext := do
  if !(pget payload "has_children" .none).truthy then
    return c
  let children_data := pget payload "children" (.list [])
  let items ← children_data.iterate
  let children ← items.mapM Child.from_dict
  return { c with
    children := children,
    has_children := decide (children.length > 0),
    has_minor_children := children.any (fun ch => ch.is_expected_to_be_minor_at_death.truthy) }

/-- Section "Build other dependants". -/
def bcDependants (payload : List (String × Value)) (c : WillContext) :
    Except PyErr WillContext := do
  let dependants_data := pget payload "dependants" (.dict [])
  if !(← dependants_data.get "has_other_dependants" .none).truthy then
    return c
  let other_deps ← dependants_data.get "other_dependants" (.list [])
  let items ← other_deps.iterate
  let deps ← items.mapM Dependant.from_dict
  return { c with other_dependants := deps }

/-- Sections "Build executors" and "Build backup executors". -/
def bcExecutors (payload : List (String × Value)) (c : WillContext) :
    Except PyErr WillContext := do
  let executors_data := pget payload "executors" (.dict [])
  let executor_mode ← executors_data.get "mode" (.str "")
  let c ←
    match c.partner, pyEq executor_mode (.str "partner_only") with
    | some partner, true =>
        pure { c with executors :=
          [{ full_name := partner.full_name, relationship := .str "partner",
             address := partner.address, phone := partner.phone,
             email := partner.email }] }
    | _, _ =>
      if pyMem executor_mode [.str "one", .str "two_joint", .str "two_joint_and_several"] then do
        let primary ← executors_data.get "primary" (.list [])
        let items ← primary.iterate
        let ex ← items.mapM Executor.from_dict
        pure { c with executors := ex }
      else
        pure c
  let backup_data ← executors_data.get "backup" (.dict [])
  let backup_mode ← backup_data.get "mode" (.str "")
  match c.partner, pyEq backup_mode (.str "partner") with
  | some partner, true =>
      return { c with backup_executors :=
        [{ full_name := partner.full_name, relationship := .str "partner",
           address := partner.address }] }
  | _, _ =>
    if pyMem backup_mode [.str "one", .str "two_joint", .str "two_joint_and_several"] then do
      let backup_list ← backup_data.get "list" (.list [])
      let items ← backup_list.iterate
      let ex ← items.mapM Executor.from_dict
      return { c with backup_executors := ex }
    else
      return c

/-- Section "Build guardians".  The lazy `and` of the source means the
sub-object is only inspected when has_minor_children already holds. -/
def bcGuardians (payload : List (String × Value)) (c : WillContext) :
    Except PyErr WillContext := do
  let guardianship_data := pget payload "guardianship" (.dict [])
  if !c.has_minor_children then
    return c
  if !(← guardianship_data.get "appoint_guardian" .none).truthy then
    return c
  let g ← Guardian.from_dict (← guardianship_data.get "guardian" (.dict []))
  let c := { c with guardian := some g, has_guardianship := true }
  let backup_guardian_data ← guardianship_data.get "backup_guardian" (.dict [])
  if backup_guardian_data.truthy then
    if (← backup_guardian_data.get "full_name" .none).truthy then
      let bg ← Guardian.from_dict backup_guardian_data
      return { c with backup_guardian := some bg }
  return c

/-- Sections "Build beneficiaries" and "Extract specific gifts and
residue beneficiaries". -/
def bcBeneficiaries (payload : List (String × Value)) (c : WillContext) :
    Except PyErr WillContext := do
  let beneficiaries_data := pget payload "beneficiaries" (.list [])
  let items ← beneficiaries_data.iterate
  let beneficiaries ← mapIdxM Beneficiary.from_dict items 0
  let c := { c with
    beneficiaries := beneficiaries,
    beneficiary_count := beneficiaries.length }
  let (gifts, residue, hasG, psum) ←
    giftLoop c.beneficiaries c.specific_gifts c.residue_beneficiaries
      c.has_specific_gifts c.percentage_sum
  let c := { c with
    specific_gifts := gifts, residue_beneficiaries := residue,
    has_specific_gifts := hasG, percentage_sum := psum }
  return { c with
    has_residue_scheme := decide (c.residue_beneficiaries.length > 0),
    has_percentages := decide (c.percentage_sum > 0) }

/-- Section "Distribution settings" (scheme, survivorship, substitution
and the alternate-beneficiary cross reference). -/
def bcDistribution (payload : List (String × Value)) (c : WillContext) :
    Except PyErr WillContext := do
  let distribution_data := pget payload "distribution" (.dict [])
  let scheme ← distribution_data.get "scheme" (.str "")
  let survivorship_data := pget payload "survivorship" (.dict [])
  let days ← survivorship_data.get "days" (.num 30)
  let substitution_data := pget payload "substitution" (.dict [])
  let rule ← substitution_data.get "rule" (.str "")
  let c := { c with
    distribution_scheme := scheme, survivorship_days := days,
    substitution_rule := rule, has_substitution := rule.truthy }
  if !pyEq c.substitution_rule (.str "to_alternate_beneficiary") then
    return c
  let alt_id ← substitution_data.get "alternate_beneficiary_id" .none
  let c := { c with alternate_beneficiary_id := alt_id, has_alternate_beneficiary := true }
  match findBeneficiary c.beneficiaries c.alternate_beneficiary_id with
  | some b => return { c with alternate_beneficiary_name := b.full_name }
  | Option.none => return c

/-- Section "Minor trusts". -/
def bcMinorTrusts (payload : List (String × Value)) (c : WillContext) :
    Except PyErr WillContext := do
  let minor_trusts_data := pget payload "minor_trusts" (.dict [])
  if !(← minor_trusts_data.get "enabled" .none).truthy then
    return c
  let vesting ← minor_trusts_data.get "vesting_age" (.num 18)
  let tmode ← minor_trusts_data.get "trustee_mode" (.str "")
  let c := { c with
    minor_trusts_enabled := true,
    minor_trusts_vesting_age := vesting,
    minor_trusts_trustee_mode := tmode }
  let c ←
    if pyEq c.minor_trusts_trustee_mode (.str "named_trustee") then do
      let trustee_data ← minor_trusts_data.get "trustee" (.dict [])
      let t ← Executor.from_dict trustee_data
      pure { c with minor_trusts_trustee := some t }
    else
      pure c
  return { c with has_minor_trusts :=
    (c.has_minor_children ||
      c.beneficiaries.any (fun b => pyMem b.gift_role [.str "residue", .str "percentage_only"])) }

/-- Toggle section "Funeral wishes". -/
def bcFuneral (toggles_data : Value) (c : WillContext) : Except PyErr WillContext := do
  let funeral_data ← toggles_data.get "funeral" (.dict [])
  if !(← funeral_data.get "enabled" .none).truthy then
    return c
  let preference ← funeral_data.get "preference" (.str "")
  let notes ← funeral_data.get "notes" (.str "")
  return { c with
    funeral_enabled := true, has_funeral_wishes := true,
    funeral_preference := preference, funeral_notes := notes }

/-- Toggle section "Digital assets". -/
def bcDigitalAssets (toggles_data : Value) (c : WillContext) : Except PyErr WillContext := do
  let digital_assets_data ← toggles_data.get "digital_assets" (.dict [])
  if !(← digital_assets_data.get "enabled" .none).truthy then
    return c
  let authority ← digital_assets_data.get "authority" (.bool false)
  let categories ← digital_assets_data.get "categories" (.list [])
  let loc ← digital_assets_data.get "instructions_location" (.str "")
  return { c with
    digital_assets_enabled := true, has_digital_assets := true,
    digital_assets_authority := authority,
    digital_assets_categories := categories,
    digital_assets_instructions_location := loc }

/-- Toggle section "Pets". -/
def bcPets (toggles_data : Value) (c : WillContext) : Except PyErr WillContext := do
  let pets_data ← toggles_data.get "pets" (.dict [])
  if !(← pets_data.get "enabled" .none).truthy then
    return c
  let count ← pets_data.get "count" (.num 0)
  let summary ← pets_data.get "summary" (.str "")
  let carer_mode ← pets_data.get "care_person_mode" (.str "")
  let cash_gift ← pets_data.get "cash_gift" .none
  let c := { c with
    pets_enabled := true, has_pets := true,
    pets_count := count, pets_summary := summary,
    pets_carer_mode := carer_mode, pets_cash_gift := cash_gift }
  if pyEq c.pets_carer_mode (.str "select_beneficiary") then
    let care_beneficiary_id ← pets_data.get "care_beneficiary_id" .none
    match findBeneficiary c.beneficiaries care_beneficiary_id with
    | some b => return { c with pets_carer_name := b.full_name, pets_carer_address := b.address }
    | Option.none => return c
  else if pyEq c.pets_carer_mode (.str "new_person") then
    let carer_data ← pets_data.get "carer" (.dict [])
    let name ← carer_data.get "full_name" (.str "")
    let addr ← Address.from_dict (← carer_data.get "address" (.dict []))
    return { c with pets_carer_name := name, pets_carer_address := addr }
  else
    return c

/-- Toggle section "Business interests". -/
def bcBusiness (toggles_data : Value) (c : WillContext) : Except PyErr WillContext := do
  let business_data ← toggles_data.get "business" (.dict [])
  if !(← business_data.get "enabled" .none).truthy then
    return c
  let interests_data ← business_data.get "interests" (.list [])
  let items ← interests_data.iterate
  let interests ← items.mapM (fun i => BusinessInterest.from_dict i c.beneficiaries)
  return { c with
    business_enabled := true, has_business_interests := true,
    business_interests := interests }

/-- Toggle section "Exclusions". -/
def bcExclusions (toggles_data : Value) (c : WillContext) : Except PyErr WillContext := do
  let exclusion_data ← toggles_data.get "exclusion" (.dict [])
  if !(← exclusion_data.get "enabled" .none).truthy then
    return c
  let exclusions_list ← exclusion_data.get "exclusions" (.list [])
  let items ← exclusions_list.iterate
  let exclusions ← items.mapM Exclusion.from_dict
  return { c with
    exclusion_enabled := true, has_exclusions := true,
    exclusions := exclusions }

/-- Toggle section "Life sustaining treatment". -/
def bcLifeSustaining (toggles_data : Value) (c : WillContext) : Except PyErr WillContext := do
  let life_sustaining_data ← toggles_data.get "life_sustaining" (.dict [])
  if !(← life_sustaining_data.get "enabled" .none).truthy then
    return c
  let template ← life_sustaining_data.get "template" (.str "")
  let values ← life_sustaining_data.get "values" (.list [])
  return { c with
    life_sustaining_enabled := true, has_life_sustaining_statement := true,
    life_sustaining_template := template, life_sustaining_values := values }

/-- Sections "Assets overview", "Declarations" and "Final derived
counts". -/
def bcFinal (payload : List (String × Value)) (c : WillContext) :
    Except PyErr WillContext := do
  let c := { c with assets := pget payload "assets" (.dict []) }
  let declarations_data := pget payload "declarations" (.dict [])
  let isd ← declarations_data.get "intended_signing_date" .none
  let c := { c with intended_signing_date := isd }
  return { c with executor_count := c.executors.length }

/-- build_context(payload): normalizes a payload mapping into a
WillContext with every derived flag, projection and count, mirroring
app/context_builder.py section by section in source order. -/
def build_context (payload : List (String × Value)) : Except PyErr WillContext := do
  let c : WillContext := {}
  let c ← bcWillMaker payload c
  let c ← bcPartner payload c
  let c ← bcChildren payload c
  let c ← bcDependants payload c
  let c ← bcExecutors payload c
  let c ← bcGuardians payload c
  let c ← bcBeneficiaries payload c
  let c ← bcDistribution payload c
  let c ← bcMinorTrusts payload c
  let toggles_data := pget payload "toggles" (.dict [])
  let c ← bcFuneral toggles_data c
  let c ← bcDigitalAssets toggles_data c
  let c ← bcPets toggles_data c
  let c ← bcBusiness toggles_data c
  let c ← bcExclusions toggles_data c
  let c ← bcLifeSustaining toggles_data c
  bcFinal payload c

/-! ## Clause logic (app/clause_logic.py) -/

/-- Stable clause identifiers (clause_logic.ClauseId); the constructor
names are the enum value strings. -/
inductive ClauseId where
  | title_identification
  | revocation
  | definitions
  | appointment_executors_trustees
  | funeral_wishes
  | guardianship
  | distribution_overview
  | specific_gifts
  | residue_distribution
  | survivorship
  | substitution
  | minor_trusts
  | administrative_powers
  | digital_assets
  | pets
  | business_interests
  | exclusion_note
  | life_sustaining_statement
  | attestation
deriving DecidableEq, Fintype

/-- Fixed clause order (clause_logic.CLAUSE_ORDER) - this never changes. -/
def CLAUSE_ORDER : List ClauseId := [
  .title_identification,
  .revocation,
  .definitions,
  .appointment_executors_trustees,
  .funeral_wishes,
  .guardianship,
  .distribution_overview,
  .specific_gifts,
  .residue_distribution,
  .survivorship,
  .substitution,
  .minor_trusts,
  .administrative_powers,
  .digital_assets,
  .pets,
  .business_interests,
  .exclusion_note,
  .life_sustaining_statement,
  .attestation
]

/-- Dependencies and conflicts for a clause
(clause_logic.ClauseDependency). -/
structure ClauseDependency where
  clause_id : ClauseId
  required_flags : List String
  conflicting_clauses : Option (List ClauseId) := Option.none
  notes : String := ""

/-- Clause dependency definitions (clause_logic.CLAUSE_DEPENDENCIES),
a dict keyed by ClauseId. -/
def CLAUSE_DEPENDENCIES : List (ClauseId × ClauseDependency) := [
  (.title_identification,
    { clause_id := .title_identification, required_flags := [],
      notes := "Always included" }),
  (.revocation,
    { clause_id := .revocation, required_flags := [],
      notes := "Always included" }),
  (.definitions,
    { clause_id := .definitions, required_flags := [],
      notes := "Always included" }),
  (.appointment_executors_trustees,
    { clause_id := .appointment_executors_trustees, required_flags := [],
      notes := "Always included - every will needs executors" }),
  (.funeral_wishes,
    { clause_id := .funeral_wishes, required_flags := ["has_funeral_wishes"],
      notes := "Only if funeral wishes toggle is enabled" }),
  (.guardianship,
    { clause_id := .guardianship, required_flags := ["has_guardianship"],
      notes := "Only if minor children exist and guardian is appointed" }),
  (.distribution_overview,
    { clause_id := .distribution_overview, required_flags := [],
      notes := "Included for complex distribution schemes" }),
  (.specific_gifts,
    { clause_id := .specific_gifts, required_flags := ["has_specific_gifts"],
      notes := "Only if specific gifts exist" }),
  (.residue_distribution,
    { clause_id := .residue_distribution, required_flags := [],
      notes := "Always included - every will has residue" }),
  (.survivorship,
    { clause_id := .survivorship, required_flags := [],
      notes := "Always included" }),
  (.substitution,
    { clause_id := .substitution, required_flags := ["has_substitution"],
      notes := "Only if substitution rule is configured" }),
  (.minor_trusts,
    { clause_id := .minor_trusts, required_flags := ["has_minor_trusts"],
      notes := "Only if minor trusts are enabled and applicable" }),
  (.administrative_powers,
    { clause_id := .administrative_powers, required_flags := [],
      notes := "Always included" }),
  (.digital_assets,
    { clause_id := .digital_assets, required_flags := ["has_digital_assets"],
      notes := "Only if digital assets toggle is enabled" }),
  (.pets,
    { clause_id := .pets, required_flags := ["has_pets"],
      notes := "Only if pets toggle is enabled" }),
  (.business_interests,
    { clause_id := .business_interests, required_flags := ["has_business_interests"],
      notes := "Only if business interests toggle is enabled" }),
  (.exclusion_note,
    { clause_id := .exclusion_note, required_flags := ["has_exclusions"],
      notes := "Only if exclusion toggle is enabled" }),
  (.life_sustaining_statement,
    { clause_id := .life_sustaining_statement, required_flags := ["has_life_sustaining_statement"],
      notes := "Only if life sustaining toggle is enabled" }),
  (.attestation,
    { clause_id := .attestation, required_flags := [],
      notes := "Always included - must be last" })
]

/-- Lookup in the CLAUSE_DEPENDENCIES dict (Python .get). -/
def depGet : List (ClauseId × ClauseDependency) → ClauseId → Option ClauseDependency
  | [], _ => Option.none
  | (k, v) :: rest, c => if k = c then some v else depGet rest c

/-- clause_logic.get_context_flags: all boolean flags of the context,
as the dict the source builds. -/
def get_context_flags (context : WillContext) : List (String × Bool) := [
  ("has_partner", context.has_partner),
  ("has_children", context.has_children),
  ("has_minor_children", context.has_minor_children),
  ("has_guardianship", context.has_guardianship),
  ("has_specific_gifts", context.has_specific_gifts),
  ("has_residue_scheme", context.has_residue_scheme),
  ("has_percentages", context.has_percentages),
  ("has_exclusions", context.has_exclusions),
  ("has_digital_assets", context.has_digital_assets),
  ("has_pets", context.has_pets),
  ("has_business_interests", context.has_business_interests),
  ("has_funeral_wishes", context.has_funeral_wishes),
  ("has_life_sustaining_statement", context.has_life_sustaining_statement),
  ("has_minor_trusts", context.has_minor_trusts),
  ("has_substitution", context.has_substitution),
  ("has_alternate_beneficiary", context.has_alternate_beneficiary)
]

/-- flags.get(flag_name, False) on the flag dict. -/
def bflagGet : List (String × Bool) → String → Bool
  | [], _ => false
  | (k, v) :: rest, key => if k = key then v else bflagGet rest key

/-- clause_logic.check_clause_dependencies: a clause is included when a
dependency entry exists and every required flag is true (an empty
required list means always included). -/
def check_clause_dependencies (clause_id : ClauseId) (context : WillContext) : Bool :=
  match depGet CLAUSE_DEPENDENCIES clause_id with
  | Option.none => false
  | some dependency =>
    if dependency.required_flags.isEmpty then
      true
    else
      dependency.required_flags.all (fun flag_name => bflagGet (get_context_flags context) flag_name)

/-- clause_logic.select_clauses: one linear pass over CLAUSE_ORDER,
keeping the clauses whose dependencies are satisfied. -/
def select_clauses (context : WillContext) : List ClauseId :=
  CLAUSE_ORDER.filter (fun clause_id => check_clause_dependencies clause_id context)

/-- CLAUSE_ORDER.index(clause): position of a clause in the fixed order
(None models the ValueError branch for a clause not in the list). -/
def clauseIndexAux : List ClauseId → ClauseId → Nat → Option Nat
  | [], _, _ => Option.none
  | x :: rest, c, i => if x = c then some i else clauseIndexAux rest c (i + 1)

/-- The loop body of clause_logic.validate_clause_order, threading the
last seen CLAUSE_ORDER index (initially -1). -/
def validateFrom : Int → List ClauseId → Bool
  | _, [] => true
  | last_index, clause :: rest =>
    match clauseIndexAux CLAUSE_ORDER clause 0 with
    | Option.none => false
    | some current_index =>
      if (current_index : Int) ≤ last_index then false
      else validateFrom (current_index : Int) rest

/-- clause_logic.validate_clause_order: clauses must appear in strictly
increasing CLAUSE_ORDER positions. -/
def validate_clause_order (clauses : List ClauseId) : Bool :=
  validateFrom (-1) clauses

/-! ## Document plan renderer (app/clause_renderer.py) -/

/-- A block of content within a clause (clause_renderer.ContentBlock). -/
structure ContentBlock where
  type : String
  content : Value
  style : String := "normal"
  indent_level : Nat := 0

/-- A clause in the document plan (clause_renderer.DocumentPlanItem). -/
structure DocumentPlanItem where
  id : String
  title : String
  numbering_level : Nat
  content_blocks : List ContentBlock := []
  clause_number : Nat := 0

/-- clause_renderer._render_attestation: execution statement, will-maker
signature block, witnessing statement, and two witness signature
blocks. -/
def render_attestation (context : WillContext) : List ContentBlock :=
  [ { type := "paragraph",
      content := .str "SIGNED by the Testator as their Last Will and Testament:",
      style := "normal" },
    { type := "signature_block",
      content := .dict [
        ("label", .str "Signature of Will Maker"),
        ("name", context.will_maker.full_name),
        ("date_label", .str "Date"),
        ("lines", .num 3)],
      style := "signature" },
    { type := "paragraph",
      content := .str ("SIGNED by the above-named Testator in our presence " ++
        "and attested by us in the presence of the Testator and each other."),
      style := "normal" },
    { type := "signature_block",
      content := .dict [
        ("label", .str "Witness 1"),
        ("name_label", .str "Name (print)"),
        ("address_label", .str "Address"),
        ("occupation_label", .str "Occupation"),
        ("date_label", .str "Date"),
        ("lines", .num 4)],
      style := "signature" },
    { type := "signature_block",
      content := .dict [
        ("label", .str "Witness 2"),
        ("name_label", .str "Name (print)"),
        ("address_label", .str "Address"),
        ("occupation_label", .str "Occupation"),
        ("date_label", .str "Date"),
        ("lines", .num 4)],
      style := "signature" } ]

/-! ## Deterministic compiler (app/pdf_generator.py)

ReportLab itself is an external backend.  Its layout is abstracted as an
injective serialization of exactly the logical inputs the source hands
to `doc.build`: the flowable story and the text drawn by the footer
callback.  Invariant mode (`rl_config.invariant = 1`, set at module
import) makes the backend suppress the timestamp-bearing document
metadata and any incidental identifiers, as required by the spec and
exercised by the repository's determinism test, so under invariant mode
the metadata does not reach the bytes.  Page numbers are drawn
identically by both footer callbacks and depend only on the story, so
they are part of the story serialization rather than the footer tag. -/

/-- A naive datetime (pdf_generator uses timezone-naive timestamps,
interpreted as UTC by format_timestamp_for_footer). -/
structure Timestamp where
  year : Nat
  month : Nat
  day : Nat
  hour : Nat
  minute : Nat
  second : Nat
deriving DecidableEq

def isLeapYear (y : Nat) : Bool :=
  (y % 4 == 0 && y % 100 != 0) || y % 400 == 0

def daysInMonth (y m : Nat) : Nat :=
  if m == 2 then (if isLeapYear y then 29 else 28)
  else if m == 4 || m == 6 || m == 9 || m == 11 then 30
  else 31

/-- astimezone(ZoneInfo("Australia/Brisbane")) on a UTC timestamp:
Brisbane is UTC+10 with no daylight saving, so add ten hours with
calendar rollover. -/
def brisbaneLocal (t : Timestamp) : Timestamp :=
  let h := t.hour + 10
  if h < 24 then { t with hour := h }
  else
    let h := h - 24
    if t.day + 1 ≤ daysInMonth t.year t.month then
      { t with hour := h, day := t.day + 1 }
    else if t.month == 12 then
      { year := t.year + 1, month := 1, day := 1, hour := h,
        minute := t.minute, second := t.second }
    else
      { t with hour := h, month := t.month + 1, day := 1 }

def monthName : Nat → String
  | 1 => "January"
  | 2 => "February"
  | 3 => "March"
  | 4 => "April"
  | 5 => "May"
  | 6 => "June"
  | 7 => "July"
  | 8 => "August"
  | 9 => "September"
  | 10 => "October"
  | 11 => "November"
  | 12 => "December"
  | _ => ""

/-- Zero-padded two-digit rendering (strftime %d, %I, %M). -/
def pad2 (n : Nat) : String :=
  if n < 10 then "0" ++ toString n else toString n

/-- strftime %I: 12-hour clock, 01 to 12. -/
def hour12 (h : Nat) : Nat :=
  let r := h % 12
  if r == 0 then 12 else r

/-- strftime %p. -/
def meridiem (h : Nat) : String :=
  if h < 12 then "AM" else "PM"

/-- pdf_generator.format_timestamp_for_footer: the naive timestamp is
taken as UTC, converted to Australia/Brisbane, and rendered with
strftime "%d %B %Y at %I:%M %p %Z" (%Z prints AEST); note the format
has minute resolution, seconds are not printed. -/
def format_timestamp_for_footer (timestamp : Timestamp) : String :=
  let lt := brisbaneLocal timestamp
  pad2 lt.day ++ " " ++ monthName lt.month ++ " " ++ toString lt.year ++
    " at " ++ pad2 (hour12 lt.hour) ++ ":" ++ pad2 lt.minute ++ " " ++
    meridiem lt.hour ++ " AEST"

/-- utils.short_hash: first `length` characters of the hash string. -/
def short_hash (full_hash : String) (length : Nat) : String :=
  if full_hash == "" then "" else full_hash.take length

/-- Python str() conversion as used by f-strings; numeric and container
formatting is abstracted (the embedded renderers only format strings
along the paths the claims exercise). -/
def pyStr : Value → String
  | .str s => s
  | .none => "None"
  | .bool true => "True"
  | .bool false => "False"
  | .num q => toString q
  | .list _ => "[...]"
  | .dict _ => "\x7b...\x7d"

/-- pdf_generator._escape_text: falsy input gives the empty string, a
string is XML-escaped, and any other truthy value would hit .replace on
a non-string and raise. -/
def escape_text (text : Value) : Except PyErr String :=
  if !text.truthy then .ok ""
  else
    match text with
    | .str s =>
      .ok ((((s.replace "&" "&amp;").replace "<" "&lt;").replace ">" "&gt;").replace "\"" "&quot;")
    | _ => .error .attributeError

/-- A ReportLab flowable as produced by _render_content_block /
_render_clause_to_elements. -/
inductive RLElement where
  | paragraph (text : String) (style : String)
  | signatureBlock (content : Value)
  | spacer (w h : Nat)
  | pageBreak

/-- pdf_generator._render_content_block: dispatch on the block type. -/
def render_content_block (block : ContentBlock) : Except PyErr (Option RLElement) := do
  if block.type == "heading1" then
    let t ← escape_text block.content
    return some (.paragraph t "title")
  else if block.type == "paragraph" then
    let t ← escape_text block.content
    return some (.paragraph t "normal")
  else if block.type == "bullet_item" then
    let text :=
      match block.content with
      | .dict xs =>
          "• " ++ pyStr ((alget xs "term").getD (.str "")) ++ " " ++
            pyStr ((alget xs "definition").getD (.str ""))
      | c => "• " ++ pyStr c
    let t ← escape_text (.str text)
    return some (.paragraph t "bullet_item")
  else if block.type == "numbered_item" then
    let t ← escape_text block.content
    return some (.paragraph t "numbered_item")
  else if block.type == "signature_block" then
    return some (.signatureBlock block.content)
  else if block.type == "page_break" then
    return some .pageBreak
  else
    return Option.none

/-- pdf_generator._render_clause_to_elements: numbered heading, the
rendered content blocks (None results skipped), and trailing spacing. -/
def render_clause_to_elements (item : DocumentPlanItem) : Except PyErr (List RLElement) := do
  let heading_text := toString item.clause_number ++ ". " ++ item.title
  let blocks ← item.content_blocks.mapM render_content_block
  return [RLElement.paragraph heading_text "clause_heading"] ++
    blocks.reduceOption ++ [RLElement.spacer 1 12]

/-- The story assembled by generate_pdf_with_footer: clause elements in
document-plan order. -/
def buildStory (document_plan : List DocumentPlanItem) : Except PyErr (List RLElement) := do
  let parts ← document_plan.mapM render_clause_to_elements
  return parts.flatten

/-- Document metadata passed to SimpleDocTemplate (title, author,
creator and the generation timestamp pinned as creation/mod date). -/
structure PdfMeta where
  title : String
  author : String
  creator : String
  creationDate : Timestamp
  modDate : Timestamp

/-- The footer callback handed to doc.build: _simple_footer (page number
only) or the full footer closure drawing the given text. -/
inductive FooterSpec where
  | simple
  | full (footer_text : String)

/-- rl_config.invariant = 1, set at pdf_generator module import. -/
def rl_config_invariant : Bool := true

def bytesOfString (s : String) : List Nat :=
  s.data.map Char.toNat

mutual

def bytesOfValue : Value → List Nat
  | .none => [0]
  | .bool b => [1, if b then 1 else 0]
  | .num q => [2] ++ bytesOfString (toString q) ++ [256]
  | .str s => [3] ++ bytesOfString s ++ [256]
  | .list xs => [4] ++ bytesOfValueList xs ++ [256]
  | .dict xs => [5] ++ bytesOfValueDict xs ++ [256]

def bytesOfValueList : List Value → List Nat
  | [] => []
  | v :: rest => bytesOfValue v ++ bytesOfValueList rest

def bytesOfValueDict : List (String × Value) → List Nat
  | [] => []
  | (k, v) :: rest => bytesOfString k ++ [257] ++ bytesOfValue v ++ bytesOfValueDict rest

end

def serializeElement : RLElement → List Nat
  | .paragraph text style => [1] ++ bytesOfString style ++ [256] ++ bytesOfString text ++ [256]
  | .signatureBlock content => [2] ++ bytesOfValue content
  | .spacer w h => [3, w, h]
  | .pageBreak => [4]

def serializeMeta (meta : PdfMeta) : List Nat :=
  bytesOfString meta.title ++ [256] ++ bytesOfString meta.author ++ [256] ++
    bytesOfString meta.creator ++ [256] ++
    [meta.creationDate.year, meta.creationDate.month, meta.creationDate.day,
     meta.creationDate.hour, meta.creationDate.minute, meta.creationDate.second,
     meta.modDate.year, meta.modDate.month, meta.modDate.day,
     meta.modDate.hour, meta.modDate.minute, meta.modDate.second]

/-- doc.build: the backend compiles the story and the footer drawing
into bytes.  Under invariant mode the timestamp-bearing metadata is
suppressed from the output; without it the metadata would be embedded
too. -/
def docBuild (invariant : Bool) (story : List RLElement) (meta : PdfMeta)
    (footer : FooterSpec) : List Nat :=
  let content := (story.map serializeElement).flatten ++
    (match footer with
     | .simple => [10]
     | .full footer_text => [11] ++ bytesOfString footer_text ++ [256])
  if invariant then content else content ++ serializeMeta meta

/-! ## SHA-256 (hashlib.sha256, FIPS 180-4) over byte lists -/

def M32 : Nat := 4294967296

def rotr32 (x n : Nat) : Nat :=
  ((x >>> n) ||| (x <<< (32 - n))) % M32

def shaCh (e f g : Nat) : Nat :=
  (e &&& f) ^^^ ((e ^^^ 0xffffffff) &&& g)

def shaMaj (a b c : Nat) : Nat :=
  (a &&& b) ^^^ (a &&& c) ^^^ (b &&& c)

def shaBigSigma0 (a : Nat) : Nat := rotr32 a 2 ^^^ rotr32 a 13 ^^^ rotr32 a 22

def shaBigSigma1 (e : Nat) : Nat := rotr32 e 6 ^^^ rotr32 e 11 ^^^ rotr32 e 25

def shaSmallSigma0 (x : Nat) : Nat := rotr32 x 7 ^^^ rotr32 x 18 ^^^ (x >>> 3)

def shaSmallSigma1 (x : Nat) : Nat := rotr32 x 17 ^^^ rotr32 x 19 ^^^ (x >>> 10)

def shaK : List Nat := [
  1116352408, 1899447441, 3049323471, 3921009573, 961987163, 1508970993,
  2453635748, 2870763221, 3624381080, 310598401, 607225278, 1426881987,
  1925078388, 2162078206, 2614888103, 3248222580, 3835390401, 4022224774,
  264347078, 604807628, 770255983, 1249150122, 1555081692, 1996064986,
  2554220882, 2821834349, 2952996808, 3210313671, 3336571891, 3584528711,
  113926993, 338241895, 666307205, 773529912, 1294757372, 1396182291,
  1695183700, 1986661051, 2177026350, 2456956037, 2730485921, 2820302411,
  3259730800, 3345764771, 3516065817, 3600352804, 4094571909, 275423344,
  430227734, 506948616, 659060556, 883997877, 958139571, 1322822218,
  1537002063, 1747873779, 1955562222, 2024104815, 2227730452, 2361852424,
  2428436474, 2756734187, 3204031479, 3329325298]

def shaInit : List Nat :=
  [1779033703, 3144134277, 1013904242, 2773480762, 1359893119, 2600822924, 528734635, 1541459225]

/-- Big-endian 64-bit length field of the padding. -/
def be64 (n : Nat) : List Nat :=
  [(n >>> 56) % 256, (n >>> 48) % 256, (n >>> 40) % 256, (n >>> 32) % 256,
   (n >>> 24) % 256, (n >>> 16) % 256, (n >>> 8) % 256, n % 256]

/-- SHA-256 padding: 0x80, zeros to 56 mod 64, then the bit length. -/
def shaPad (msg : List Nat) : List Nat :=
  let len := msg.length
  let zeros := (119 - len % 64) % 64
  msg ++ [0x80] ++ List.replicate zeros 0 ++ be64 (8 * len)

/-- Split the padded message into 64-byte blocks. -/
def chunk64 : List Nat → List (List Nat)
  | [] => []
  | b :: rest => ((b :: rest).take 64) :: chunk64 ((b :: rest).drop 64)
termination_by bs => bs.length
decreasing_by simp [List.length_drop]; omega

/-- Big-endian 32-bit words of a block. -/
def be32Words : List Nat → List Nat
  | b0 :: b1 :: b2 :: b3 :: rest => (((b0 * 256 + b1) * 256 + b2) * 256 + b3) :: be32Words rest
  | _ => []

/-- Extend the 16 block words to the 64-entry message schedule. -/
def extendSchedule (w : List Nat) : Nat → List Nat
  | 0 => w
  | fuel + 1 =>
    let n := w.length
    let nw := (shaSmallSigma1 (w.getD (n - 2) 0) + w.getD (n - 7) 0 +
               shaSmallSigma0 (w.getD (n - 15) 0) + w.getD (n - 16) 0) % M32
    extendSchedule (w ++ [nw]) fuel

/-- The eight working variables of the compression loop. -/
structure SHAState where
  a : Nat
  b : Nat
  c : Nat
  d : Nat
  e : Nat
  f : Nat
  g : Nat
  h : Nat

def shaRound (st : SHAState) (kw : Nat × Nat) : SHAState :=
  let t1 := (st.h + shaBigSigma1 st.e + shaCh st.e st.f st.g + kw.1 + kw.2) % M32
  let t2 := (shaBigSigma0 st.a + shaMaj st.a st.b st.c) % M32
  { a := (t1 + t2) % M32, b := st.a, c := st.b, d := st.c,
    e := (st.d + t1) % M32, f := st.e, g := st.f, h := st.g }

def compressBlock (hs : List Nat) (block : List Nat) : List Nat :=
  let w := extendSchedule (be32Words block) 48
  let st0 : SHAState :=
    { a := hs.getD 0 0, b := hs.getD 1 0, c := hs.getD 2 0, d := hs.getD 3 0,
      e := hs.getD 4 0, f := hs.getD 5 0, g := hs.getD 6 0, h := hs.getD 7 0 }
  let st := (shaK.zip w).foldl shaRound st0
  [(hs.getD 0 0 + st.a) % M32, (hs.getD 1 0 + st.b) % M32,
   (hs.getD 2 0 + st.c) % M32, (hs.getD 3 0 + st.d) % M32,
   (hs.getD 4 0 + st.e) % M32, (hs.getD 5 0 + st.f) % M32,
   (hs.getD 6 0 + st.g) % M32, (hs.getD 7 0 + st.h) % M32]

def be32 (n : Nat) : List Nat :=
  [(n >>> 24) % 256, (n >>> 16) % 256, (n >>> 8) % 256, n % 256]

/-- SHA-256 digest (32 bytes) of a byte list. -/
def sha256 (msg : List Nat) : List Nat :=
  let final := (chunk64 (shaPad msg)).foldl compressBlock shaInit
  (final.map be32).flatten

def hexDigit (n : Nat) : String :=
  match n with
  | 0 => "0" | 1 => "1" | 2 => "2" | 3 => "3" | 4 => "4"
  | 5 => "5" | 6 => "6" | 7 => "7" | 8 => "8" | 9 => "9"
  | 10 => "a" | 11 => "b" | 12 => "c" | 13 => "d" | 14 => "e"
  | _ => "f"

def byteHex (b : Nat) : String :=
  hexDigit (b / 16) ++ hexDigit (b % 16)

/-- hashlib.sha256(bytes).hexdigest(). -/
def sha256hex (msg : List Nat) : String :=
  String.join ((sha256 msg).map byteHex)

/-! ## generate_pdf_with_footer and verify_pdf_integrity -/

/-- pdf_generator.generate_pdf_with_footer(context, document_plan,
generation_timestamp): two-pass compile.  Pass one builds the story with
the simple page-number footer and hashes the resulting bytes; pass two
rebuilds the same story with the full footer text (formatted timestamp
and truncated content hash) and returns those bytes together with their
own SHA-256 hex digest.  The default-argument path (generation_timestamp
None, filled from the wall clock) is outside this model; claims always
pass a timestamp. -/
def generate_pdf_with_footer (context : WillContext)
    (document_plan : List DocumentPlanItem) (generation_timestamp : Timestamp) :
    Except PyErr (List Nat × String) := do
  let meta : PdfMeta :=
    { title := "Last Will and Testament", author := "Will Generator",
      creator := "Will Generator", creationDate := generation_timestamp,
      modDate := generation_timestamp }
  let story ← buildStory document_plan
  let pdf_bytes_temp := docBuild rl_config_invariant story meta .simple
  let content_hash := sha256hex pdf_bytes_temp
  let story2 ← buildStory document_plan
  let formatted_time := format_timestamp_for_footer generation_timestamp
  let short_hash_str := short_hash content_hash 16
  let footer_text := "Generated: " ++ formatted_time ++ " | Hash: " ++ short_hash_str
  let pdf_bytes := docBuild rl_config_invariant story2 meta (.full footer_text)
  let final_hash := sha256hex pdf_bytes
  return (pdf_bytes, final_hash)

/-- The first-pass bytes of generate_pdf_with_footer (the content pass
whose hash is embedded in the final footer). -/
def firstPassBytes (context : WillContext) (document_plan : List DocumentPlanItem)
    (generation_timestamp : Timestamp) : Except PyErr (List Nat) := do
  let meta : PdfMeta :=
    { title := "Last Will and Testament", author := "Will Generator",
      creator := "Will Generator", creationDate := generation_timestamp,
      modDate := generation_timestamp }
  let story ← buildStory document_plan
  return docBuild rl_config_invariant story meta .simple

/-- pdf_generator.verify_pdf_integrity: recompute the SHA-256 hex digest
and compare with the expected hash. -/
def verify_pdf_integrity (pdf_bytes : List Nat) (expected_hash : String) : Bool :=
  sha256hex pdf_bytes == expected_hash

/-! ## Supporting lemmas for clause selection -/

/-- Position of each clause in CLAUSE_ORDER. -/
def orderIdx : ClauseId → Nat
  | .title_identification => 0
  | .revocation => 1
  | .definitions => 2
  | .appointment_executors_trustees => 3
  | .funeral_wishes => 4
  | .guardianship => 5
  | .distribution_overview => 6
  | .specific_gifts => 7
  | .residue_distribution => 8
  | .survivorship => 9
  | .substitution => 10
  | .minor_trusts => 11
  | .administrative_powers => 12
  | .digital_assets => 13
  | .pets => 14
  | .business_interests => 15
  | .exclusion_note => 16
  | .life_sustaining_statement => 17
  | .attestation => 18

theorem clauseIndexAux_eq (c : ClauseId) :
    clauseIndexAux CLAUSE_ORDER c 0 = some (orderIdx c) := by
  cases c <;> rfl

theorem clause_order_nodup : CLAUSE_ORDER.Nodup := by decide

theorem check_title_eq (ctx : WillContext) :
    check_clause_dependencies .title_identification ctx = true := rfl

theorem check_attestation_eq (ctx : WillContext) :
    check_clause_dependencies .attestation ctx = true := rfl

theorem check_funeral_eq (ctx : WillContext) :
    check_clause_dependencies .funeral_wishes ctx = ctx.has_funeral_wishes :=
  Bool.and_true _

theorem check_guardianship_eq (ctx : WillContext) :
    check_clause_dependencies .guardianship ctx = ctx.has_guardianship :=
  Bool.and_true _

theorem check_specific_gifts_eq (ctx : WillContext) :
    check_clause_dependencies .specific_gifts ctx = ctx.has_specific_gifts :=
  Bool.and_true _

theorem check_substitution_eq (ctx : WillContext) :
    check_clause_dependencies .substitution ctx = ctx.has_substitution :=
  Bool.and_true _

theorem check_minor_trusts_eq (ctx : WillContext) :
    check_clause_dependencies .minor_trusts ctx = ctx.has_minor_trusts :=
  Bool.and_true _

theorem check_digital_assets_eq (ctx : WillContext) :
    check_clause_dependencies .digital_assets ctx = ctx.has_digital_assets :=
  Bool.and_true _

theorem check_pets_eq (ctx : WillContext) :
    check_clause_dependencies .pets ctx = ctx.has_pets :=
  Bool.and_true _

theorem check_business_eq (ctx : WillContext) :
    check_clause_dependencies .business_interests ctx = ctx.has_business_interests :=
  Bool.and_true _

theorem check_exclusion_eq (ctx : WillContext) :
    check_clause_dependencies .exclusion_note ctx = ctx.has_exclusions :=
  Bool.and_true _

theorem check_life_sustaining_eq (ctx : WillContext) :
    check_clause_dependencies .life_sustaining_statement ctx = ctx.has_life_sustaining_statement :=
  Bool.and_true _

/-- The first/last structure of the fixed order. -/
theorem clause_order_decomp :
    CLAUSE_ORDER = .title_identification :: (CLAUSE_ORDER.drop 1) := rfl

theorem clause_order_concat :
    CLAUSE_ORDER = CLAUSE_ORDER.dropLast ++ [.attestation] := rfl

/-- C1: For every context, the list returned by select_clauses(context)
is a subsequence of the fixed CLAUSE_ORDER, contains no duplicate clause
ids, its first element is title_identification, and its last element is
attestation. -/
theorem select_clauses_order_invariants (ctx : WillContext) :
    (select_clauses ctx).Sublist CLAUSE_ORDER ∧
    (select_clauses ctx).Nodup ∧
    (select_clauses ctx).head? = some .title_identification ∧
    (select_clauses ctx).getLast? = some .attestation := by
  refine ⟨List.filter_sublist _, (List.filter_sublist _).nodup clause_order_nodup, ?_, ?_⟩
  · rw [select_clauses, clause_order_decomp]
    rfl
  · rw [select_clauses, clause_order_concat, List.filter_append]
    have h1 : List.filter (fun clause_id => check_clause_dependencies clause_id ctx)
        [ClauseId.attestation] = [ClauseId.attestation] := rfl
    rw [h1, List.getLast?_concat]

/-- C10: distribution_overview has an empty required-flag set, so every
selected list contains at least the nine always-included clauses; in
particular distribution_overview is not conditional on any
distribution-complexity flag. -/
theorem always_included_clauses (ctx : WillContext) :
    ((depGet CLAUSE_DEPENDENCIES .distribution_overview).map
        (fun d => d.required_flags)) = some [] ∧
    ∀ c ∈ [ClauseId.title_identification, ClauseId.revocation,
        ClauseId.definitions, ClauseId.appointment_executors_trustees,
        ClauseId.distribution_overview, ClauseId.residue_distribution,
        ClauseId.survivorship, ClauseId.administrative_powers,
        ClauseId.attestation], c ∈ select_clauses ctx := by
  refine ⟨rfl, ?_⟩
  intro c hc
  simp only [List.mem_cons, List.not_mem_nil, or_false] at hc
  rcases hc with rfl | rfl | rfl | rfl | rfl | rfl | rfl | rfl | rfl <;>
    exact List.mem_filter.mpr ⟨by decide, rfl⟩

theorem validateFrom_cons (last : Int) (c : ClauseId) (rest : List ClauseId) :
    validateFrom last (c :: rest) =
      if (orderIdx c : Int) ≤ last then false else validateFrom (orderIdx c) rest := by
  simp only [validateFrom, clauseIndexAux_eq]

theorem validateFrom_iff (cs : List ClauseId) : ∀ last : Int,
    validateFrom last cs = true ↔
      (List.Chain' (fun a b => orderIdx a < orderIdx b) cs ∧
        ∀ c ∈ cs.head?, last < (orderIdx c : Int)) := by
  induction cs with
  | nil =>
    intro last
    simp [validateFrom]
  | cons c rest ih =>
    intro last
    rw [validateFrom_cons]
    by_cases h : (orderIdx c : Int) ≤ last
    · simp only [if_pos h]
      constructor
      · intro hfalse
        cases hfalse
      · rintro ⟨-, hlt⟩
        have hc := hlt c rfl
        omega
    · simp only [if_neg h]
      rw [ih, List.chain'_cons']
      constructor
      · rintro ⟨hch, hhd⟩
        refine ⟨⟨?_, hch⟩, ?_⟩
        · intro y hy
          have := hhd y hy
          omega
        · intro c' hc'
          have hcc : c' = c := by
            have := hc'
            simp only [Option.mem_def, List.head?] at this
            exact (Option.some.inj this).symm
          subst hcc
          omega
      · rintro ⟨⟨hhd, hch⟩, -⟩
        refine ⟨hch, ?_⟩
        intro y hy
        have := hhd y hy
        omega

theorem orderIdx_injective : ∀ a b : ClauseId, orderIdx a = orderIdx b → a = b := by
  decide

/-- C7: validate_clause_order returns True exactly when the elements
appear in strictly increasing CLAUSE_ORDER positions; consequently a
valid list has no duplicates, and the unknown-id branch is vacuous
because every ClauseId occurs in CLAUSE_ORDER. -/
theorem validate_clause_order_iff (clauses : List ClauseId) :
    (validate_clause_order clauses = true ↔
      List.Chain' (fun a b => orderIdx a < orderIdx b) clauses) ∧
    (validate_clause_order clauses = true → clauses.Nodup) ∧
    (∀ c : ClauseId, c ∈ CLAUSE_ORDER) := by
  have hiff : validate_clause_order clauses = true ↔
      List.Chain' (fun a b => orderIdx a < orderIdx b) clauses := by
    rw [validate_clause_order, validateFrom_iff]
    constructor
    · exact fun h => h.1
    · intro h
      refine ⟨h, ?_⟩
      intro c _
      omega
  refine ⟨hiff, ?_, by decide⟩
  intro hv
  have hch := hiff.mp hv
  haveI : IsTrans ClauseId (fun a b => orderIdx a < orderIdx b) :=
    ⟨fun _ _ _ h1 h2 => Nat.lt_trans h1 h2⟩
  have hpw : List.Pairwise (fun a b => orderIdx a < orderIdx b) clauses := by
    rw [List.chain'_iff_pairwise] at hch
    exact hch
  exact hpw.imp (fun {a b} hlt => fun he => by subst he; exact Nat.lt_irrefl _ hlt)

/-! ## Flag-clause correspondence (C6 machinery) -/

/-- The optional clause flags: context flags that appear in some
CLAUSE_DEPENDENCIES required list. -/
inductive OptionalFlag where
  | funeral_wishes
  | guardianship
  | specific_gifts
  | substitution
  | minor_trusts
  | digital_assets
  | pets
  | business_interests
  | exclusions
  | life_sustaining
deriving DecidableEq

/-- The clause gated by each optional flag. -/
def clauseOfFlag : OptionalFlag → ClauseId
  | .funeral_wishes => .funeral_wishes
  | .guardianship => .guardianship
  | .specific_gifts => .specific_gifts
  | .substitution => .substitution
  | .minor_trusts => .minor_trusts
  | .digital_assets => .digital_assets
  | .pets => .pets
  | .business_interests => .business_interests
  | .exclusions => .exclusion_note
  | .life_sustaining => .life_sustaining_statement

/-- Value of an optional flag in a context. -/
def flagVal : OptionalFlag → WillContext → Bool
  | .funeral_wishes, c => c.has_funeral_wishes
  | .guardianship, c => c.has_guardianship
  | .specific_gifts, c => c.has_specific_gifts
  | .substitution, c => c.has_substitution
  | .minor_trusts, c => c.has_minor_trusts
  | .digital_assets, c => c.has_digital_assets
  | .pets, c => c.has_pets
  | .business_interests, c => c.has_business_interests
  | .exclusions, c => c.has_exclusions
  | .life_sustaining, c => c.has_life_sustaining_statement

/-- Context identical to ctx except for the given optional flag. -/
def setFlag : OptionalFlag → Bool → WillContext → WillContext
  | .funeral_wishes, b, c => { c with has_funeral_wishes := b }
  | .guardianship, b, c => { c with has_guardianship := b }
  | .specific_gifts, b, c => { c with has_specific_gifts := b }
  | .substitution, b, c => { c with has_substitution := b }
  | .minor_trusts, b, c => { c with has_minor_trusts := b }
  | .digital_assets, b, c => { c with has_digital_assets := b }
  | .pets, b, c => { c with has_pets := b }
  | .business_interests, b, c => { c with has_business_interests := b }
  | .exclusions, b, c => { c with has_exclusions := b }
  | .life_sustaining, b, c => { c with has_life_sustaining_statement := b }

theorem check_setFlag_ne (f : OptionalFlag) (b : Bool) (ctx : WillContext)
    (c : ClauseId) (h : c ≠ clauseOfFlag f) :
    check_clause_dependencies c (setFlag f b ctx) = check_clause_dependencies c ctx := by
  cases f <;> cases c <;> first | rfl | exact absurd rfl h

theorem check_setFlag_self (f : OptionalFlag) (b : Bool) (ctx : WillContext) :
    check_clause_dependencies (clauseOfFlag f) (setFlag f b ctx) = b := by
  cases f <;> exact Bool.and_true _

theorem check_flagVal (f : OptionalFlag) (ctx : WillContext) :
    check_clause_dependencies (clauseOfFlag f) ctx = flagVal f ctx := by
  cases f <;> exact Bool.and_true _

theorem clauseOfFlag_mem_order (f : OptionalFlag) : clauseOfFlag f ∈ CLAUSE_ORDER := by
  cases f <;> decide

/-- C6: changing a single optional clause flag changes membership of
exactly that flag's clause: the selected lists agree once that clause is
filtered out (so presence and relative order of every other clause is
unchanged), and membership of the flag's clause equals the flag value on
each side. -/
theorem flag_clause_correspondence (ctx : WillContext) (f : OptionalFlag) (b : Bool) :
    ((select_clauses ctx).filter (fun c => c != clauseOfFlag f) =
      (select_clauses (setFlag f b ctx)).filter (fun c => c != clauseOfFlag f)) ∧
    (clauseOfFlag f ∈ select_clauses ctx ↔ flagVal f ctx = true) ∧
    (clauseOfFlag f ∈ select_clauses (setFlag f b ctx) ↔ b = true) := by
  refine ⟨?_, ?_, ?_⟩
  · rw [select_clauses, select_clauses, List.filter_filter, List.filter_filter]
    apply List.filter_congr
    intro c _
    by_cases hne : c = clauseOfFlag f
    · subst hne
      simp
    · rw [check_setFlag_ne f b ctx c hne]
  · rw [select_clauses, List.mem_filter]
    simp [clauseOfFlag_mem_order f, check_flagVal]
  · rw [select_clauses, List.mem_filter]
    simp [clauseOfFlag_mem_order f, check_setFlag_self]

/-- C8: the attestation clause renderer always emits the same fixed
5-block shape - two fixed paragraphs, exactly one will-maker signature
block (carrying the will maker's name) and exactly two fixed witness
signature blocks - independent of every context field other than the
will maker's name. -/
theorem attestation_fixed_shape (ctx ctx2 : WillContext)
    (hname : ctx.will_maker.full_name = ctx2.will_maker.full_name) :
    render_attestation ctx = render_attestation ctx2 ∧
    ((render_attestation ctx).map (fun blk => blk.type)) =
      ["paragraph", "signature_block", "paragraph", "signature_block", "signature_block"] ∧
    ((render_attestation ctx).filter (fun blk => blk.type == "signature_block")).length = 3 ∧
    (render_attestation ctx)[1]? = some
      { type := "signature_block",
        content := .dict [
          ("label", .str "Signature of Will Maker"),
          ("name", ctx.will_maker.full_name),
          ("date_label", .str "Date"),
          ("lines", .num 3)],
        style := "signature" } ∧
    (render_attestation ctx)[3]? = some
      { type := "signature_block",
        content := .dict [
          ("label", .str "Witness 1"),
          ("name_label", .str "Name (print)"),
          ("address_label", .str "Address"),
          ("occupation_label", .str "Occupation"),
          ("date_label", .str "Date"),
          ("lines", .num 4)],
        style := "signature" } ∧
    (render_attestation ctx)[4]? = some
      { type := "signature_block",
        content := .dict [
          ("label", .str "Witness 2"),
          ("name_label", .str "Name (print)"),
          ("address_label", .str "Address"),
          ("occupation_label", .str "Occupation"),
          ("date_label", .str "Date"),
          ("lines", .num 4)],
        style := "signature" } := by
  refine ⟨?_, rfl, rfl, rfl, rfl, rfl⟩
  simp only [render_attestation, hname]

/-- Witness for attestation_fixed_shape at two concrete contexts that
agree on the will maker's name but differ elsewhere. -/
theorem attestation_fixed_shape_witness :
    ({ } : WillContext).will_maker.full_name =
      ({ has_pets := true } : WillContext).will_maker.full_name ∧
    render_attestation { } = render_attestation { has_pets := true } :=
  ⟨rfl, (attestation_fixed_shape { } { has_pets := true } rfl).1⟩

/-! ## Projection lemmas for the beneficiary pass (C4, C5 machinery) -/

/-- The specific gift an individual beneficiary contributes (exactly one
for role specific_cash or specific_item, none otherwise). -/
def specificGiftOf (b : Beneficiary) : Option SpecificGift :=
  if pyEq b.gift_role (.str "specific_cash") then
    some { beneficiary_id := b.id, beneficiary_name := b.full_name,
           gift_type := .str "cash", cash_amount := b.cash_amount }
  else if pyEq b.gift_role (.str "specific_item") then
    some { beneficiary_id := b.id, beneficiary_name := b.full_name,
           gift_type := .str "item", item_description := b.item_description }
  else
    Option.none

/-- The residue entry an individual beneficiary contributes (exactly one
for role residue, none otherwise). -/
def residueEntryOf (b : Beneficiary) : Option ResidueBeneficiary :=
  if pyEq b.gift_role (.str "residue") then
    some { beneficiary_id := b.id, beneficiary_name := b.full_name,
           share_percent := b.residue_share_percent }
  else
    Option.none

theorem filterMap_cons_toList {α β : Type} (f : α → Option β) (a : α) (l : List α) :
    (a :: l).filterMap f = (f a).toList ++ l.filterMap f := by
  cases h : f a <;> simp [List.filterMap_cons, h]

theorem pyEq_str_iff (v : Value) (t : String) : pyEq v (.str t) = true ↔ v = .str t := by
  cases v <;> simp [pyEq]

theorem percBind_ok (psum : Rat) (p : Value) (q : Rat)
    (h : (match p with | Value.none => pure psum | v => pyAdd psum v) =
      (Except.ok q : Except PyErr Rat)) :
    q = psum + (p.toNum?).getD 0 := by
  cases p with
  | none =>
    simp only [pure, Except.pure, Except.ok.injEq] at h
    simp [Value.toNum?, ← h]
  | bool b =>
    simp only [pyAdd, Value.toNum?, Except.ok.injEq] at h
    simp [Value.toNum?, ← h]
  | num r =>
    simp only [pyAdd, Value.toNum?, Except.ok.injEq] at h
    simp [Value.toNum?, ← h]
  | str s => simp [pyAdd, Value.toNum?] at h
  | list l => simp [pyAdd, Value.toNum?] at h
  | dict d => simp [pyAdd, Value.toNum?] at h

theorem giftStep_ok_spec (acc : List SpecificGift × List ResidueBeneficiary × Bool × Rat)
    (b : Beneficiary) (out : List SpecificGift × List ResidueBeneficiary × Bool × Rat)
    (h : giftStep acc b = .ok out) :
    out.1 = acc.1 ++ (specificGiftOf b).toList ∧
    out.2.1 = acc.2.1 ++ (residueEntryOf b).toList ∧
    out.2.2.2 = acc.2.2.2 + (b.percentage.toNum?).getD 0 := by
  obtain ⟨gifts, residue, hasG, psum⟩ := acc
  rw [giftStep] at h
  by_cases h1 : pyEq b.gift_role (.str "specific_cash") = true
  · have hrole := (pyEq_str_iff _ _).mp h1
    simp only [h1, if_true] at h
    cases hp : b.percentage <;>
      simp only [hp, pyAdd, Value.toNum?, pure, bind, Except.bind, Except.pure,
        Except.ok.injEq] at h <;>
      first
        | (subst h
           simp [specificGiftOf, residueEntryOf, hrole, pyEq, hp, Value.toNum?])
        | cases h
  · simp only [h1, if_false, Bool.false_eq_true] at h
    by_cases h2 : pyEq b.gift_role (.str "specific_item") = true
    · have hrole := (pyEq_str_iff _ _).mp h2
      simp only [h2, if_true] at h
      cases hp : b.percentage <;>
        simp only [hp, pyAdd, Value.toNum?, pure, bind, Except.bind, Except.pure,
          Except.ok.injEq] at h <;>
        first
          | (subst h
             simp [specificGiftOf, residueEntryOf, hrole, pyEq, hp, Value.toNum?])
          | cases h
    · simp only [h2, if_false, Bool.false_eq_true] at h
      by_cases h3 : pyEq b.gift_role (.str "residue") = true
      · have hrole := (pyEq_str_iff _ _).mp h3
        simp only [h3, if_true] at h
        cases hp : b.percentage <;>
          simp only [hp, pyAdd, Value.toNum?, pure, bind, Except.bind, Except.pure,
            Except.ok.injEq] at h <;>
          first
            | (subst h
               simp [specificGiftOf, residueEntryOf, hrole, pyEq, hp, Value.toNum?])
            | cases h
      · simp only [h3, if_false, Bool.false_eq_true] at h
        cases hp : b.percentage <;>
          simp only [hp, pyAdd, Value.toNum?, pure, bind, Except.bind, Except.pure,
            Except.ok.injEq] at h <;>
          first
            | (subst h
               simp [specificGiftOf, residueEntryOf, h1, h2, h3, hp, Value.toNum?])
            | cases h

theorem giftLoop_ok_spec (bs : List Beneficiary) :
    ∀ acc out, List.foldlM giftStep acc bs = .ok out →
    out.1 = acc.1 ++ bs.filterMap specificGiftOf ∧
    out.2.1 = acc.2.1 ++ bs.filterMap residueEntryOf ∧
    out.2.2.2 = acc.2.2.2 + (bs.map (fun b => (b.percentage.toNum?).getD 0)).sum := by
  induction bs with
  | nil =>
    intro acc out h
    simp only [List.foldlM_nil, pure, Except.pure, Except.ok.injEq] at h
    subst h
    simp
  | cons b rest ih =>
    intro acc out h
    rw [List.foldlM_cons] at h
    cases hs : giftStep acc b with
    | error e => rw [hs] at h; cases h
    | ok acc1 =>
      rw [hs] at h
      simp only [bind, Except.bind] at h
      obtain ⟨e1, e2, e3⟩ := ih acc1 out h
      obtain ⟨s1, s2, s3⟩ := giftStep_ok_spec acc b acc1 hs
      refine ⟨?_, ?_, ?_⟩
      · rw [e1, s1, filterMap_cons_toList, List.append_assoc]
      · rw [e2, s2, filterMap_cons_toList, List.append_assoc]
      · rw [e3, s3, List.map_cons, List.sum_cons]
        ring

/-- The beneficiary-derived fields agree between two contexts. -/
abbrev benFieldsEq (c2 c : WillContext) : Prop :=
  c2.beneficiaries = c.beneficiaries ∧
  c2.specific_gifts = c.specific_gifts ∧
  c2.residue_beneficiaries = c.residue_beneficiaries ∧
  c2.has_specific_gifts = c.has_specific_gifts ∧
  c2.percentage_sum = c.percentage_sum

theorem benFieldsEq_refl (c : WillContext) : benFieldsEq c c :=
  ⟨rfl, rfl, rfl, rfl, rfl⟩

theorem benFieldsEq_trans {c3 c2 c : WillContext}
    (h1 : benFieldsEq c3 c2) (h2 : benFieldsEq c2 c) : benFieldsEq c3 c :=
  ⟨h1.1.trans h2.1, h1.2.1.trans h2.2.1, h1.2.2.1.trans h2.2.2.1,
   h1.2.2.2.1.trans h2.2.2.2.1, h1.2.2.2.2.trans h2.2.2.2.2⟩

theorem bcWillMaker_ben (p : List (String × Value)) (c c2 : WillContext)
    (h : bcWillMaker p c = .ok c2) : benFieldsEq c2 c := by
  rw [bcWillMaker] at h
  simp only [bind, Except.bind, pure, Except.pure] at h
  repeat' split at h
  all_goals first
    | (cases h; exact ⟨rfl, rfl, rfl, rfl, rfl⟩)
    | cases h

theorem bcPartner_ben (p : List (String × Value)) (c c2 : WillContext)
    (h : bcPartner p c = .ok c2) : benFieldsEq c2 c := by
  rw [bcPartner] at h
  simp only [bind, Except.bind, pure, Except.pure] at h
  repeat' split at h
  all_goals first
    | (cases h; exact ⟨rfl, rfl, rfl, rfl, rfl⟩)
    | cases h

theorem bcChildren_ben (p : List (String × Value)) (c c2 : WillContext)
    (h : bcChildren p c = .ok c2) : benFieldsEq c2 c := by
  rw [bcChildren] at h
  simp only [bind, Except.bind, pure, Except.pure] at h
  repeat' split at h
  all_goals first
    | (cases h; exact ⟨rfl, rfl, rfl, rfl, rfl⟩)
    | cases h

theorem bcDependants_ben (p : List (String × Value)) (c c2 : WillContext)
    (h : bcDependants p c = .ok c2) : benFieldsEq c2 c := by
  rw [bcDependants] at h
  simp only [bind, Except.bind, pure, Except.pure] at h
  repeat' split at h
  all_goals first
    | (cases h; exact ⟨rfl, rfl, rfl, rfl, rfl⟩)
    | cases h

theorem bcExecutors_ben (p : List (String × Value)) (c c2 : WillContext)
    (h : bcExecutors p c = .ok c2) : benFieldsEq c2 c := by
  rw [bcExecutors] at h
  simp only [bind, Except.bind, pure, Except.pure] at h
  repeat' split at h
  all_goals first
    | (cases h; exact ⟨rfl, rfl, rfl, rfl, rfl⟩)
    | cases h

theorem bcGuardians_ben (p : List (String × Value)) (c c2 : WillContext)
    (h : bcGuardians p c = .ok c2) : benFieldsEq c2 c := by
  rw [bcGuardians] at h
  simp only [bind, Except.bind, pure, Except.pure] at h
  repeat' split at h
  all_goals first
    | (cases h; exact ⟨rfl, rfl, rfl, rfl, rfl⟩)
    | cases h

theorem bcDistribution_ben (p : List (String × Value)) (c c2 : WillContext)
    (h : bcDistribution p c = .ok c2) : benFieldsEq c2 c := by
  rw [bcDistribution] at h
  simp only [bind, Except.bind, pure, Except.pure] at h
  repeat' split at h
  all_goals first
    | (cases h; exact ⟨rfl, rfl, rfl, rfl, rfl⟩)
    | cases h

theorem bcMinorTrusts_ben (p : List (String × Value)) (c c2 : WillContext)
    (h : bcMinorTrusts p c = .ok c2) : benFieldsEq c2 c := by
  rw [bcMinorTrusts] at h
  simp only [bind, Except.bind, pure, Except.pure] at h
  repeat' split at h
  all_goals first
    | (cases h; exact ⟨rfl, rfl, rfl, rfl, rfl⟩)
    | cases h

theorem bcFuneral_ben (t : Value) (c c2 : WillContext)
    (h : bcFuneral t c = .ok c2) : benFieldsEq c2 c := by
  rw [bcFuneral] at h
  simp only [bind, Except.bind, pure, Except.pure] at h
  repeat' split at h
  all_goals first
    | (cases h; exact ⟨rfl, rfl, rfl, rfl, rfl⟩)
    | cases h

theorem bcDigitalAssets_ben (t : Value) (c c2 : WillContext)
    (h : bcDigitalAssets t c = .ok c2) : benFieldsEq c2 c := by
  rw [bcDigitalAssets] at h
  simp only [bind, Except.bind, pure, Except.pure] at h
  repeat' split at h
  all_goals first
    | (cases h; exact ⟨rfl, rfl, rfl, rfl, rfl⟩)
    | cases h

theorem bcPets_ben (t : Value) (c c2 : WillContext)
    (h : bcPets t c = .ok c2) : benFieldsEq c2 c := by
  rw [bcPets] at h
  simp only [bind, Except.bind, pure, Except.pure] at h
  repeat' split at h
  all_goals first
    | (cases h; exact ⟨rfl, rfl, rfl, rfl, rfl⟩)
    | cases h

theorem bcBusiness_ben (t : Value) (c c2 : WillContext)
    (h : bcBusiness t c = .ok c2) : benFieldsEq c2 c := by
  rw [bcBusiness] at h
  simp only [bind, Except.bind, pure, Except.pure] at h
  repeat' split at h
  all_goals first
    | (cases h; exact ⟨rfl, rfl, rfl, rfl, rfl⟩)
    | cases h

theorem bcExclusions_ben (t : Value) (c c2 : WillContext)
    (h : bcExclusions t c = .ok c2) : benFieldsEq c2 c := by
  rw [bcExclusions] at h
  simp only [bind, Except.bind, pure, Except.pure] at h
  repeat' split at h
  all_goals first
    | (cases h; exact ⟨rfl, rfl, rfl, rfl, rfl⟩)
    | cases h

theorem bcLifeSustaining_ben (t : Value) (c c2 : WillContext)
    (h : bcLifeSustaining t c = .ok c2) : benFieldsEq c2 c := by
  rw [bcLifeSustaining] at h
  simp only [bind, Except.bind, pure, Except.pure] at h
  repeat' split at h
  all_goals first
    | (cases h; exact ⟨rfl, rfl, rfl, rfl, rfl⟩)
    | cases h

theorem bcFinal_ben (p : List (String × Value)) (c c2 : WillContext)
    (h : bcFinal p c = .ok c2) : benFieldsEq c2 c := by
  rw [bcFinal] at h
  simp only [bind, Except.bind, pure, Except.pure] at h
  repeat' split at h
  all_goals first
    | (cases h; exact ⟨rfl, rfl, rfl, rfl, rfl⟩)
    | cases h

theorem bcBeneficiaries_spec (p : List (String × Value)) (c c2 : WillContext)
    (h : bcBeneficiaries p c = .ok c2) :
    c2.specific_gifts = c.specific_gifts ++ c2.beneficiaries.filterMap specificGiftOf ∧
    c2.residue_beneficiaries =
      c.residue_beneficiaries ++ c2.beneficiaries.filterMap residueEntryOf ∧
    c2.percentage_sum =
      c.percentage_sum + (c2.beneficiaries.map (fun b => (b.percentage.toNum?).getD 0)).sum := by
  rw [bcBeneficiaries] at h
  simp only [bind, Except.bind, pure, Except.pure] at h
  cases hit : Value.iterate (pget p "beneficiaries" (Value.list [])) with
  | error e => rw [hit] at h; cases h
  | ok items =>
    rw [hit] at h
    dsimp only at h
    cases hmap : mapIdxM Beneficiary.from_dict items 0 with
    | error e => rw [hmap] at h; cases h
    | ok bs =>
      rw [hmap] at h
      dsimp only at h
      cases hloop : giftLoop bs c.specific_gifts c.residue_beneficiaries
          c.has_specific_gifts c.percentage_sum with
      | error e => rw [hloop] at h; cases h
      | ok out =>
        rw [hloop] at h
        dsimp only at h
        obtain ⟨gifts, residue, hasG, psum⟩ := out
        cases h
        rw [giftLoop] at hloop
        obtain ⟨e1, e2, e3⟩ := giftLoop_ok_spec bs _ _ hloop
        exact ⟨e1, e2, e3⟩

theorem build_context_ben (p : List (String × Value)) (ctx : WillContext)
    (h : build_context p = .ok ctx) :
    ctx.specific_gifts = ctx.beneficiaries.filterMap specificGiftOf ∧
    ctx.residue_beneficiaries = ctx.beneficiaries.filterMap residueEntryOf ∧
    ctx.percentage_sum =
      (ctx.beneficiaries.map (fun b => (b.percentage.toNum?).getD 0)).sum := by
  rw [build_context] at h
  simp only [bind, Except.bind, pure, Except.pure] at h
  cases h1 : bcWillMaker p {} with
  | error e => rw [h1] at h; cases h
  | ok c1 =>
  rw [h1] at h; dsimp only at h
  cases h2 : bcPartner p c1 with
  | error e => rw [h2] at h; cases h
  | ok c2 =>
  rw [h2] at h; dsimp only at h
  cases h3 : bcChildren p c2 with
  | error e => rw [h3] at h; cases h
  | ok c3 =>
  rw [h3] at h; dsimp only at h
  cases h4 : bcDependants p c3 with
  | error e => rw [h4] at h; cases h
  | ok c4 =>
  rw [h4] at h; dsimp only at h
  cases h5 : bcExecutors p c4 with
  | error e => rw [h5] at h; cases h
  | ok c5 =>
  rw [h5] at h; dsimp only at h
  cases h6 : bcGuardians p c5 with
  | error e => rw [h6] at h; cases h
  | ok c6 =>
  rw [h6] at h; dsimp only at h
  cases h7 : bcBeneficiaries p c6 with
  | error e => rw [h7] at h; cases h
  | ok c7 =>
  rw [h7] at h; dsimp only at h
  cases h8 : bcDistribution p c7 with
  | error e => rw [h8] at h; cases h
  | ok c8 =>
  rw [h8] at h; dsimp only at h
  cases h9 : bcMinorTrusts p c8 with
  | error e => rw [h9] at h; cases h
  | ok c9 =>
  rw [h9] at h; dsimp only at h
  cases h10 : bcFuneral (pget p "toggles" (Value.dict [])) c9 with
  | error e => rw [h10] at h; cases h
  | ok c10 =>
  rw [h10] at h; dsimp only at h
  cases h11 : bcDigitalAssets (pget p "toggles" (Value.dict [])) c10 with
  | error e => rw [h11] at h; cases h
  | ok c11 =>
  rw [h11] at h; dsimp only at h
  cases h12 : bcPets (pget p "toggles" (Value.dict [])) c11 with
  | error e => rw [h12] at h; cases h
  | ok c12 =>
  rw [h12] at h; dsimp only at h
  cases h13 : bcBusiness (pget p "toggles" (Value.dict [])) c12 with
  | error e => rw [h13] at h; cases h
  | ok c13 =>
  rw [h13] at h; dsimp only at h
  cases h14 : bcExclusions (pget p "toggles" (Value.dict [])) c13 with
  | error e => rw [h14] at h; cases h
  | ok c14 =>
  rw [h14] at h; dsimp only at h
  cases h15 : bcLifeSustaining (pget p "toggles" (Value.dict [])) c14 with
  | error e => rw [h15] at h; cases h
  | ok c15 =>
  rw [h15] at h; dsimp only at h
  have hpre : benFieldsEq c6 ({} : WillContext) :=
    benFieldsEq_trans (bcGuardians_ben p c5 c6 h6)
      (benFieldsEq_trans (bcExecutors_ben p c4 c5 h5)
        (benFieldsEq_trans (bcDependants_ben p c3 c4 h4)
          (benFieldsEq_trans (bcChildren_ben p c2 c3 h3)
            (benFieldsEq_trans (bcPartner_ben p c1 c2 h2)
              (bcWillMaker_ben p {} c1 h1)))))
  have hpost : benFieldsEq ctx c7 :=
    benFieldsEq_trans (bcFinal_ben p c15 ctx h)
      (benFieldsEq_trans (bcLifeSustaining_ben _ c14 c15 h15)
        (benFieldsEq_trans (bcExclusions_ben _ c13 c14 h14)
          (benFieldsEq_trans (bcBusiness_ben _ c12 c13 h13)
            (benFieldsEq_trans (bcPets_ben _ c11 c12 h12)
              (benFieldsEq_trans (bcDigitalAssets_ben _ c10 c11 h11)
                (benFieldsEq_trans (bcFuneral_ben _ c9 c10 h10)
                  (benFieldsEq_trans (bcMinorTrusts_ben p c8 c9 h9)
                    (bcDistribution_ben p c7 c8 h8))))))))
  obtain ⟨s1, s2, s3⟩ := bcBeneficiaries_spec p c6 c7 h7
  obtain ⟨b1, g1, r1, _, p1⟩ := hpost
  obtain ⟨-, g0, r0, -, p0⟩ := hpre
  refine ⟨?_, ?_, ?_⟩
  · rw [g1, b1, s1, g0]
    rfl
  · rw [r1, b1, s2, r0]
    rfl
  · rw [p1, b1, s3, p0]
    simp

/-- C5: every specific_cash / specific_item beneficiary yields exactly
one SpecificGift, every residue beneficiary yields exactly one
ResidueBeneficiary, and both derived lists preserve the input order of
the beneficiary collection (they are exactly the order-preserving
projections of it). -/
theorem beneficiary_projection (payload : List (String × Value)) (ctx : WillContext)
    (h : build_context payload = .ok ctx) :
    ctx.specific_gifts = ctx.beneficiaries.filterMap specificGiftOf ∧
    ctx.residue_beneficiaries = ctx.beneficiaries.filterMap residueEntryOf :=
  ⟨(build_context_ben payload ctx h).1, (build_context_ben payload ctx h).2.1⟩

/-- A payload with a beneficiary of each of the specific_cash,
specific_item and residue gift roles. -/
def projPayload : List (String × Value) := [("beneficiaries", .list [
  .dict [("id", .str "b1"), ("full_name", .str "A"),
         ("gift_role", .str "specific_cash"), ("cash_amount", .num 1000)],
  .dict [("id", .str "b2"), ("full_name", .str "B"),
         ("gift_role", .str "specific_item"), ("item_description", .str "watch")],
  .dict [("id", .str "b3"), ("full_name", .str "C"),
         ("gift_role", .str "residue"), ("residue_share_percent", .num 60)]])]

/-- The context build_context produces for projPayload. -/
def projCtx : WillContext :=
  { beneficiaries := [
      { id := .str "b1", full_name := .str "A",
        gift_role := .str "specific_cash", cash_amount := .num 1000 },
      { id := .str "b2", full_name := .str "B",
        gift_role := .str "specific_item", item_description := .str "watch" },
      { id := .str "b3", full_name := .str "C",
        gift_role := .str "residue", residue_share_percent := .num 60 }],
    beneficiary_count := 3,
    specific_gifts := [
      { beneficiary_id := .str "b1", beneficiary_name := .str "A",
        gift_type := .str "cash", cash_amount := .num 1000 },
      { beneficiary_id := .str "b2", beneficiary_name := .str "B",
        gift_type := .str "item", item_description := .str "watch" }],
    residue_beneficiaries := [
      { beneficiary_id := .str "b3", beneficiary_name := .str "C",
        share_percent := .num 60 }],
    has_specific_gifts := true,
    has_residue_scheme := true }

theorem projPayload_step1 : bcWillMaker projPayload {} = .ok {} := rfl
theorem projPayload_step2 : bcPartner projPayload {} = .ok {} := rfl
theorem projPayload_step3 : bcChildren projPayload {} = .ok {} := rfl
theorem projPayload_step4 : bcDependants projPayload {} = .ok {} := rfl
theorem projPayload_step5 : bcExecutors projPayload {} = .ok {} := rfl
theorem projPayload_step6 : bcGuardians projPayload {} = .ok {} := rfl
theorem projPayload_step7 : bcBeneficiaries projPayload {} = .ok projCtx := rfl
theorem projPayload_step8 : bcDistribution projPayload projCtx = .ok projCtx := rfl
theorem projPayload_step9 : bcMinorTrusts projPayload projCtx = .ok projCtx := rfl
theorem projPayload_step10 :
    bcFuneral (pget projPayload "toggles" (.dict [])) projCtx = .ok projCtx := rfl
theorem projPayload_step11 :
    bcDigitalAssets (pget projPayload "toggles" (.dict [])) projCtx = .ok projCtx := rfl
theorem projPayload_step12 :
    bcPets (pget projPayload "toggles" (.dict [])) projCtx = .ok projCtx := rfl
theorem projPayload_step13 :
    bcBusiness (pget projPayload "toggles" (.dict [])) projCtx = .ok projCtx := rfl
theorem projPayload_step14 :
    bcExclusions (pget projPayload "toggles" (.dict [])) projCtx = .ok projCtx := rfl
theorem projPayload_step15 :
    bcLifeSustaining (pget projPayload "toggles" (.dict [])) projCtx = .ok projCtx := rfl
theorem projPayload_step16 : bcFinal projPayload projCtx = .ok projCtx := rfl

theorem build_context_projPayload : build_context projPayload = .ok projCtx := by
  rw [build_context]
  simp only [bind, Except.bind, pure, Except.pure,
    projPayload_step1, projPayload_step2, projPayload_step3, projPayload_step4,
    projPayload_step5, projPayload_step6, projPayload_step7, projPayload_step8,
    projPayload_step9, projPayload_step10, projPayload_step11, projPayload_step12,
    projPayload_step13, projPayload_step14, projPayload_step15, projPayload_step16]

/-- Witness for beneficiary_projection at a concrete payload covering
the specific_cash, specific_item and residue gift roles. -/
theorem beneficiary_projection_witness :
    build_context projPayload = .ok projCtx ∧
    projCtx.specific_gifts = projCtx.beneficiaries.filterMap specificGiftOf ∧
    projCtx.residue_beneficiaries = projCtx.beneficiaries.filterMap residueEntryOf :=
  ⟨build_context_projPayload,
    (beneficiary_projection projPayload projCtx build_context_projPayload).1,
    (beneficiary_projection projPayload projCtx build_context_projPayload).2⟩

/-- The spec's formula for the percentage sum: only percentage_only
beneficiaries' percentages are summed.  Stated from the spec sentence,
for comparison with the percentage_sum the code computes. -/
def percentage_only_sum (c : WillContext) : Rat :=
  ((c.beneficiaries.filter (fun b => pyEq b.gift_role (.str "percentage_only"))).filterMap
    (fun b => b.percentage.toNum?)).sum

/-- A validated-shape payload whose single residue beneficiary also
carries a stray percentage value. -/
def residuePercPayload : List (String × Value) := [("beneficiaries", .list [
  .dict [("id", .str "r1"), ("full_name", .str "R"),
         ("gift_role", .str "residue"), ("residue_share_percent", .num 100),
         ("percentage", .num 50)]])]

/-- The context build_context produces for residuePercPayload (the
percentage_sum and has_percentages fields are spelled exactly as the
beneficiary pass computes them). -/
def resCtx : WillContext :=
  { beneficiaries := [
      { id := .str "r1", full_name := .str "R",
        gift_role := .str "residue", residue_share_percent := .num 100,
        percentage := .num 50 }],
    beneficiary_count := 1,
    residue_beneficiaries := [
      { beneficiary_id := .str "r1", beneficiary_name := .str "R",
        share_percent := .num 100 }],
    has_residue_scheme := true,
    percentage_sum := (0 : Rat) + 50,
    has_percentages := decide ((0 : Rat) + 50 > 0) }

theorem resPayload_step1 : bcWillMaker residuePercPayload {} = .ok {} := rfl
theorem resPayload_step2 : bcPartner residuePercPayload {} = .ok {} := rfl
theorem resPayload_step3 : bcChildren residuePercPayload {} = .ok {} := rfl
theorem resPayload_step4 : bcDependants residuePercPayload {} = .ok {} := rfl
theorem resPayload_step5 : bcExecutors residuePercPayload {} = .ok {} := rfl
theorem resPayload_step6 : bcGuardians residuePercPayload {} = .ok {} := rfl
theorem resPayload_step7 : bcBeneficiaries residuePercPayload {} = .ok resCtx := rfl
theorem resPayload_step8 : bcDistribution residuePercPayload resCtx = .ok resCtx := rfl
theorem resPayload_step9 : bcMinorTrusts residuePercPayload resCtx = .ok resCtx := rfl
theorem resPayload_step10 :
    bcFuneral (pget residuePercPayload "toggles" (.dict [])) resCtx = .ok resCtx := rfl
theorem resPayload_step11 :
    bcDigitalAssets (pget residuePercPayload "toggles" (.dict [])) resCtx = .ok resCtx := rfl
theorem resPayload_step12 :
    bcPets (pget residuePercPayload "toggles" (.dict [])) resCtx = .ok resCtx := rfl
theorem resPayload_step13 :
    bcBusiness (pget residuePercPayload "toggles" (.dict [])) resCtx = .ok resCtx := rfl
theorem resPayload_step14 :
    bcExclusions (pget residuePercPayload "toggles" (.dict [])) resCtx = .ok resCtx := rfl
theorem resPayload_step15 :
    bcLifeSustaining (pget residuePercPayload "toggles" (.dict [])) resCtx = .ok resCtx := rfl
theorem resPayload_step16 : bcFinal residuePercPayload resCtx = .ok resCtx := rfl

theorem build_context_residuePercPayload :
    build_context residuePercPayload = .ok resCtx := by
  rw [build_context]
  simp only [bind, Except.bind, pure, Except.pure,
    resPayload_step1, resPayload_step2, resPayload_step3, resPayload_step4,
    resPayload_step5, resPayload_step6, resPayload_step7, resPayload_step8,
    resPayload_step9, resPayload_step10, resPayload_step11, resPayload_step12,
    resPayload_step13, resPayload_step14, resPayload_step15, resPayload_step16]

/-- C4 counterexample: build_context adds the percentage of a residue
beneficiary into percentage_sum, so percentage_sum (50) differs from the
spec's sum over percentage_only beneficiaries (0). -/
theorem percentage_sum_counterexample :
    build_context residuePercPayload = .ok resCtx ∧
    resCtx.percentage_sum = 50 ∧
    percentage_only_sum resCtx = 0 ∧
    (50 : Rat) ≠ 0 := by
  refine ⟨build_context_residuePercPayload, by norm_num [resCtx], ?_, by norm_num⟩
  simp [percentage_only_sum, resCtx, pyEq]

/-- C4 amended: percentage_sum equals the arithmetic sum of the
percentage values of exactly those beneficiaries whose percentage field
is set, regardless of gift_role (a beneficiary without a percentage
contributes zero). -/
theorem percentage_sum_spec (payload : List (String × Value)) (ctx : WillContext)
    (h : build_context payload = .ok ctx) :
    ctx.percentage_sum =
      (ctx.beneficiaries.map (fun b => (b.percentage.toNum?).getD 0)).sum :=
  (build_context_ben payload ctx h).2.2

/-- Witness for percentage_sum_spec at a concrete payload. -/
theorem percentage_sum_spec_witness :
    build_context residuePercPayload = .ok resCtx ∧
    resCtx.percentage_sum =
      (resCtx.beneficiaries.map (fun b => (b.percentage.toNum?).getD 0)).sum :=
  ⟨build_context_residuePercPayload,
    percentage_sum_spec residuePercPayload resCtx build_context_residuePercPayload⟩

/-! ## Malformed payload shapes (C3 machinery) -/

/-- A payload whose dependants sub-section is a number instead of a
mapping: the source calls .get on it and raises AttributeError. -/
def badShapePayload : List (String × Value) := [("dependants", .num 0)]

theorem badShape_step1 : bcWillMaker badShapePayload {} = .ok {} := rfl
theorem badShape_step2 : bcPartner badShapePayload {} = .ok {} := rfl
theorem badShape_step3 : bcChildren badShapePayload {} = .ok {} := rfl
theorem badShape_step4 : bcDependants badShapePayload {} = .error .attributeError := rfl

/-- C3 counterexample: build_context raises (AttributeError) on a
payload whose dependants section is a scalar, instead of substituting an
empty collection. -/
theorem build_context_raises_on_bad_shape :
    build_context badShapePayload = .error .attributeError := by
  rw [build_context]
  simp only [bind, Except.bind, pure, Except.pure,
    badShape_step1, badShape_step2, badShape_step3, badShape_step4]

/-- Is the value a Python dict. -/
def Value.isDict : Value → Bool
  | .dict _ => true
  | _ => false

/-- Total lookup used by the shape predicate (mirrors .get on a value
already known to be a dict; returns the default otherwise). -/
def vget (v : Value) (k : String) (d : Value) : Value :=
  match v with
  | .dict xs => (alget xs k).getD d
  | _ => d

/-- Falsy values and dicts are accepted by the from_dict constructors. -/
def falsyOrDict (v : Value) : Bool := !v.truthy || v.isDict

/-- A person-like sub-object: falsy, or a dict whose address entry is
itself falsy-or-dict. -/
def entityOk (v : Value) : Bool :=
  !v.truthy || (v.isDict && falsyOrDict (vget v "address" (.dict [])))

/-- A list whose members all satisfy f. -/
def listOf (f : Value → Bool) (v : Value) : Bool :=
  match v with
  | .list xs => xs.all f
  | _ => false

/-- A beneficiary entry: person-like, with an absent or numeric
percentage (a non-numeric percentage raises in the accumulation). -/
def benOk (v : Value) : Bool :=
  entityOk v &&
    (match v with
     | .dict xs =>
       (match (alget xs "percentage").getD .none with
        | .none => true
        | p => p.toNum?.isSome)
     | _ => true)

/-- A dict with a falsy-or-dict address entry (pet carer, business
recipient). -/
def personDictOk (v : Value) : Bool :=
  v.isDict && falsyOrDict (vget v "address" (.dict []))

/-- A business-interest entry. -/
def biOk (v : Value) : Bool :=
  falsyOrDict v && personDictOk (vget v "recipient" (.dict []))

theorem isOk_exists {α : Type} (e : Except PyErr α) : e.isOk = true ↔ ∃ a, e = .ok a := by
  cases e <;> simp [Except.isOk, Except.toBool]

theorem truthy_eq_false {v : Value} (h : ¬ v.truthy = true) : v.truthy = false := by
  cases hv : v.truthy
  · rfl
  · exact absurd hv h

theorem get_isDict (v : Value) (k : String) (d : Value) (h : v.isDict = true) :
    Value.get v k d = .ok (vget v k d) := by
  cases v <;> simp_all [Value.isDict, Value.get, vget]

theorem falsyOrDict_dict {v : Value} (h : falsyOrDict v = true) (ht : v.truthy = true) :
    v.isDict = true := by
  simpa [falsyOrDict, ht] using h

theorem Address_from_dict_isOk (v : Value) (h : falsyOrDict v = true) :
    (Address.from_dict v).isOk = true := by
  by_cases ht : v.truthy = true
  · have hd := falsyOrDict_dict h ht
    cases v with
    | dict xs =>
      simp [Address.from_dict, ht, Value.get, bind, Except.bind, pure, Except.pure,
        Except.isOk, Except.toBool]
    | none => cases hd
    | bool b => cases hd
    | num q => cases hd
    | str s => cases hd
    | list xs => cases hd
  · simp [Address.from_dict, truthy_eq_false ht, Except.isOk, Except.toBool,
      pure, Except.pure]

theorem WillMaker_from_dict_isOk (v : Value) (h : entityOk v = true) :
    (WillMaker.from_dict v).isOk = true := by
  by_cases ht : v.truthy = true
  · have hda : v.isDict = true ∧ falsyOrDict (vget v "address" (.dict [])) = true := by
      simpa [entityOk, ht] using h
    cases v with
    | dict xs =>
      obtain ⟨a, ha⟩ := (isOk_exists _).mp (Address_from_dict_isOk _ hda.2)
      simp only [vget] at ha
      simp [WillMaker.from_dict, ht, Value.get, bind, Except.bind, pure, Except.pure,
        Except.isOk, Except.toBool, ha]
    | none => cases hda.1
    | bool b => cases hda.1
    | num q => cases hda.1
    | str s => cases hda.1
    | list xs => cases hda.1
  · simp [WillMaker.from_dict, truthy_eq_false ht, Except.isOk, Except.toBool,
      pure, Except.pure]

theorem Partner_from_dict_isOk (v : Value) (h : entityOk v = true) :
    (Partner.from_dict v).isOk = true := by
  by_cases ht : v.truthy = true
  · have hda : v.isDict = true ∧ falsyOrDict (vget v "address" (.dict [])) = true := by
      simpa [entityOk, ht] using h
    cases v with
    | dict xs =>
      obtain ⟨a, ha⟩ := (isOk_exists _).mp (Address_from_dict_isOk _ hda.2)
      simp only [vget] at ha
      simp [Partner.from_dict, ht, Value.get, bind, Except.bind, pure, Except.pure,
        Except.isOk, Except.toBool, ha]
    | none => cases hda.1
    | bool b => cases hda.1
    | num q => cases hda.1
    | str s => cases hda.1
    | list xs => cases hda.1
  · simp [Partner.from_dict, truthy_eq_false ht, Except.isOk, Except.toBool,
      pure, Except.pure]

theorem Executor_from_dict_isOk (v : Value) (h : entityOk v = true) :
    (Executor.from_dict v).isOk = true := by
  by_cases ht : v.truthy = true
  · have hda : v.isDict = true ∧ falsyOrDict (vget v "address" (.dict [])) = true := by
      simpa [entityOk, ht] using h
    cases v with
    | dict xs =>
      obtain ⟨a, ha⟩ := (isOk_exists _).mp (Address_from_dict_isOk _ hda.2)
      simp only [vget] at ha
      simp [Executor.from_dict, ht, Value.get, bind, Except.bind, pure, Except.pure,
        Except.isOk, Except.toBool, ha]
    | none => cases hda.1
    | bool b => cases hda.1
    | num q => cases hda.1
    | str s => cases hda.1
    | list xs => cases hda.1
  · simp [Executor.from_dict, truthy_eq_false ht, Except.isOk, Except.toBool,
      pure, Except.pure]

theorem Guardian_from_dict_isOk (v : Value) (h : entityOk v = true) :
    (Guardian.from_dict v).isOk = true := by
  by_cases ht : v.truthy = true
  · have hda : v.isDict = true ∧ falsyOrDict (vget v "address" (.dict [])) = true := by
      simpa [entityOk, ht] using h
    cases v with
    | dict xs =>
      obtain ⟨a, ha⟩ := (isOk_exists _).mp (Address_from_dict_isOk _ hda.2)
      simp only [vget] at ha
      simp [Guardian.from_dict, ht, Value.get, bind, Except.bind, pure, Except.pure,
        Except.isOk, Except.toBool, ha]
    | none => cases hda.1
    | bool b => cases hda.1
    | num q => cases hda.1
    | str s => cases hda.1
    | list xs => cases hda.1
  · simp [Guardian.from_dict, truthy_eq_false ht, Except.isOk, Except.toBool,
      pure, Except.pure]

theorem Child_from_dict_isOk (v : Value) (h : falsyOrDict v = true) :
    (Child.from_dict v).isOk = true := by
  by_cases ht : v.truthy = true
  · have hd := falsyOrDict_dict h ht
    cases v with
    | dict xs =>
      simp [Child.from_dict, ht, Value.get, bind, Except.bind, pure, Except.pure,
        Except.isOk, Except.toBool]
    | none => cases hd
    | bool b => cases hd
    | num q => cases hd
    | str s => cases hd
    | list xs => cases hd
  · simp [Child.from_dict, truthy_eq_false ht, Except.isOk, Except.toBool,
      pure, Except.pure]

theorem Dependant_from_dict_isOk (v : Value) (h : falsyOrDict v = true) :
    (Dependant.from_dict v).isOk = true := by
  by_cases ht : v.truthy = true
  · have hd := falsyOrDict_dict h ht
    cases v with
    | dict xs =>
      simp [Dependant.from_dict, ht, Value.get, bind, Except.bind, pure, Except.pure,
        Except.isOk, Except.toBool]
    | none => cases hd
    | bool b => cases hd
    | num q => cases hd
    | str s => cases hd
    | list xs => cases hd
  · simp [Dependant.from_dict, truthy_eq_false ht, Except.isOk, Except.toBool,
      pure, Except.pure]

theorem Exclusion_from_dict_isOk (v : Value) (h : falsyOrDict v = true) :
    (Exclusion.from_dict v).isOk = true := by
  by_cases ht : v.truthy = true
  · have hd := falsyOrDict_dict h ht
    cases v with
    | dict xs =>
      simp [Exclusion.from_dict, ht, Value.get, bind, Except.bind, pure, Except.pure,
        Except.isOk, Except.toBool]
    | none => cases hd
    | bool b => cases hd
    | num q => cases hd
    | str s => cases hd
    | list xs => cases hd
  · simp [Exclusion.from_dict, truthy_eq_false ht, Except.isOk, Except.toBool,
      pure, Except.pure]

/-- The parsed percentage is absent or numeric. -/
def benPercOk (b : Beneficiary) : Bool :=
  match b.percentage with
  | .none => true
  | p => p.toNum?.isSome

theorem Beneficiary_from_dict_ok (v : Value) (i : Nat) (h : benOk v = true) :
    ∃ b, Beneficiary.from_dict v i = .ok b ∧ benPercOk b = true := by
  have he : entityOk v = true := by
    simp only [benOk, Bool.and_eq_true] at h
    exact h.1
  by_cases ht : v.truthy = true
  · have hda : v.isDict = true ∧ falsyOrDict (vget v "address" (.dict [])) = true := by
      simpa [entityOk, ht] using he
    cases v with
    | dict xs =>
      obtain ⟨a, ha⟩ := (isOk_exists _).mp (Address_from_dict_isOk _ hda.2)
      simp only [vget] at ha
      have hperc : benPercOk
          { id := (alget xs "id").getD (.str ("beneficiary_" ++ toString i)),
            type := (alget xs "type").getD (.str "individual"),
            full_name := (alget xs "full_name").getD (.str ""),
            relationship := (alget xs "relationship").getD (.str ""),
            address := a,
            abn := (alget xs "abn").getD (.str ""),
            gift_role := (alget xs "gift_role").getD (.str ""),
            residue_share_percent := (alget xs "residue_share_percent").getD .none,
            percentage := (alget xs "percentage").getD .none,
            cash_amount := (alget xs "cash_amount").getD .none,
            item_description := (alget xs "item_description").getD (.str "") } = true := by
        simp only [benOk, Bool.and_eq_true] at h
        simpa [benPercOk] using h.2
      refine ⟨_, ?_, hperc⟩
      simp [Beneficiary.from_dict, ht, Value.get, bind, Except.bind, pure, Except.pure, ha]
    | none => cases hda.1
    | bool b => cases hda.1
    | num q => cases hda.1
    | str s => cases hda.1
    | list xs => cases hda.1
  · refine ⟨{}, ?_, rfl⟩
    simp [Beneficiary.from_dict, truthy_eq_false ht, pure, Except.pure]

theorem BusinessInterest_from_dict_isOk (v : Value) (bens : List Beneficiary)
    (h : biOk v = true) : (BusinessInterest.from_dict v bens).isOk = true := by
  have hfd : falsyOrDict v = true := by
    simp only [biOk, Bool.and_eq_true] at h
    exact h.1
  have hrec : personDictOk (vget v "recipient" (.dict [])) = true := by
    simp only [biOk, Bool.and_eq_true] at h
    exact h.2
  by_cases ht : v.truthy = true
  · have hd := falsyOrDict_dict hfd ht
    cases v with
    | dict xs =>
      have hrd : (vget (Value.dict xs) "recipient" (.dict [])).isDict = true := by
        simp only [personDictOk, Bool.and_eq_true] at hrec
        exact hrec.1
      have hra : falsyOrDict
          (vget (vget (Value.dict xs) "recipient" (.dict [])) "address" (.dict [])) = true := by
        simp only [personDictOk, Bool.and_eq_true] at hrec
        exact hrec.2
      rw [BusinessInterest.from_dict]
      by_cases hsel : (pyEq ((alget xs "recipient_mode").getD (.str ""))
          (.str "select_beneficiary") &&
          ((alget xs "recipient_id").getD .none).truthy) = true
      · cases hfind : findBeneficiary bens ((alget xs "recipient_id").getD .none) <;>
          simp [ht, Value.get, bind, Except.bind, pure, Except.pure, Except.isOk,
            Except.toBool, hsel, hfind]
      · by_cases hnp : pyEq ((alget xs "recipient_mode").getD (.str ""))
            (.str "new_person") = true
        · cases hv : vget (Value.dict xs) "recipient" (.dict []) with
          | dict rec_xs =>
            obtain ⟨a, ha⟩ := (isOk_exists _).mp (Address_from_dict_isOk _ hra)
            rw [hv] at ha
            simp only [vget] at ha hv
            simp [ht, Value.get, bind, Except.bind, pure, Except.pure, Except.isOk,
              Except.toBool, hsel, hnp, hv, ha, vget]
          | none => rw [hv] at hrd; cases hrd
          | bool b => rw [hv] at hrd; cases hrd
          | num q => rw [hv] at hrd; cases hrd
          | str s => rw [hv] at hrd; cases hrd
          | list xs2 => rw [hv] at hrd; cases hrd
        · simp [ht, Value.get, bind, Except.bind, pure, Except.pure, Except.isOk,
            Except.toBool, hsel, hnp]
    | none => cases hd
    | bool b => cases hd
    | num q => cases hd
    | str s => cases hd
    | list xs => cases hd
  · simp [BusinessInterest.from_dict, truthy_eq_false ht, Except.isOk, Except.toBool,
      pure, Except.pure]

theorem listOf_ok {f : Value → Bool} (v : Value) (h : listOf f v = true) :
    ∃ xs, v.iterate = .ok xs ∧ ∀ x ∈ xs, f x = true := by
  cases v with
  | list xs =>
    refine ⟨xs, rfl, ?_⟩
    simpa [listOf, List.all_eq_true] using h
  | none => cases h
  | bool b => cases h
  | num q => cases h
  | str s => cases h
  | dict xs => cases h

theorem mapM_isOk {α : Type} (f : Value → Except PyErr α) (xs : List Value)
    (h : ∀ x ∈ xs, (f x).isOk = true) : (xs.mapM f).isOk = true := by
  induction xs with
  | nil => rfl
  | cons a l ih =>
    rw [List.mapM_cons]
    obtain ⟨y, hy⟩ := (isOk_exists _).mp (h a (by simp))
    have hl := ih (fun x hx => h x (by simp [hx]))
    obtain ⟨ys, hys⟩ := (isOk_exists _).mp hl
    have hys2 : List.mapM.loop f l [] = Except.ok ys := hys
    simp [hy, hys, hys2, bind, Except.bind, pure, Except.pure, Except.isOk, Except.toBool]

theorem mapIdxM_ok (xs : List Value) :
    ∀ i, (∀ x ∈ xs, benOk x = true) →
    ∃ bs, mapIdxM Beneficiary.from_dict xs i = .ok bs ∧ ∀ b ∈ bs, benPercOk b = true := by
  induction xs with
  | nil => exact fun i _ => ⟨[], rfl, by simp⟩
  | cons a l ih =>
    intro i h
    obtain ⟨b, hb, hbperc⟩ := Beneficiary_from_dict_ok a i (h a (by simp))
    obtain ⟨bs, hbs, hbsperc⟩ := ih (i + 1) (fun x hx => h x (by simp [hx]))
    refine ⟨b :: bs, ?_, ?_⟩
    · rw [mapIdxM, hb]
      simp [hbs, bind, Except.bind, pure, Except.pure]
    · intro x hx
      rcases List.mem_cons.mp hx with rfl | hx2
      · exact hbperc
      · exact hbsperc x hx2

theorem giftStep_isOk (acc : List SpecificGift × List ResidueBeneficiary × Bool × Rat)
    (b : Beneficiary) (h : benPercOk b = true) : (giftStep acc b).isOk = true := by
  obtain ⟨g, r, hg, ps⟩ := acc
  rw [giftStep]
  cases hp : b.percentage <;>
    simp_all [benPercOk, pyAdd, Value.toNum?, bind, Except.bind, pure, Except.pure,
      Except.isOk, Except.toBool]

theorem giftLoop_isOk (bs : List Beneficiary) (h : ∀ b ∈ bs, benPercOk b = true) :
    ∀ acc, (List.foldlM giftStep acc bs).isOk = true := by
  induction bs with
  | nil => intro acc; rfl
  | cons b l ih =>
    intro acc
    rw [List.foldlM_cons]
    obtain ⟨acc1, hacc1⟩ := (isOk_exists _).mp (giftStep_isOk acc b (h b (by simp)))
    rw [hacc1]
    simpa [bind, Except.bind] using ih (fun x hx => h x (by simp [hx])) acc1

theorem bcWillMaker_isOk (p : List (String × Value)) (c : WillContext)
    (h : entityOk (pget p "will_maker" (.dict [])) = true) :
    (bcWillMaker p c).isOk = true := by
  obtain ⟨wm, hwm⟩ := (isOk_exists _).mp (WillMaker_from_dict_isOk _ h)
  simp [bcWillMaker, hwm, bind, Except.bind, pure, Except.pure, Except.isOk, Except.toBool]

theorem bcPartner_isOk (p : List (String × Value)) (c : WillContext)
    (h : entityOk (pget p "partner" (.dict [])) = true) :
    (bcPartner p c).isOk = true := by
  obtain ⟨pt, hpt⟩ := (isOk_exists _).mp (Partner_from_dict_isOk _ h)
  rw [bcPartner]
  by_cases hp : pyMem c.will_maker.relationship_status
      [Value.str "married", Value.str "de_facto"] = true <;>
    by_cases hs : pyEq c.will_maker.relationship_status (Value.str "separated") = true <;>
      simp [hp, hs, hpt, bind, Except.bind, pure, Except.pure, Except.isOk, Except.toBool]

theorem bcChildren_isOk (p : List (String × Value)) (c : WillContext)
    (h : listOf falsyOrDict (pget p "children" (.list [])) = true) :
    (bcChildren p c).isOk = true := by
  rw [bcChildren]
  by_cases hc : (pget p "has_children" Value.none).truthy = true
  · obtain ⟨items, hit, hmem⟩ := listOf_ok _ h
    have hm := mapM_isOk Child.from_dict items
      (fun x hx => Child_from_dict_isOk x (hmem x hx))
    obtain ⟨children, hch⟩ := (isOk_exists _).mp hm
    have hch2 : List.mapM.loop Child.from_dict items [] = Except.ok children := hch
    simp [hc, hit, hch, hch2, bind, Except.bind, pure, Except.pure, Except.isOk, Except.toBool]
  · simp [hc, pure, Except.pure, Except.isOk, Except.toBool]

theorem bcDependants_isOk (p : List (String × Value)) (c : WillContext)
    (hd : (pget p "dependants" (.dict [])).isDict = true)
    (hl : listOf falsyOrDict
      (vget (pget p "dependants" (.dict [])) "other_dependants" (.list [])) = true) :
    (bcDependants p c).isOk = true := by
  rw [bcDependants]
  rw [get_isDict _ _ _ hd]
  by_cases ho : (vget (pget p "dependants" (.dict [])) "has_other_dependants" Value.none).truthy = true
  · obtain ⟨items, hit, hmem⟩ := listOf_ok _ hl
    have hm := mapM_isOk Dependant.from_dict items
      (fun x hx => Dependant_from_dict_isOk x (hmem x hx))
    obtain ⟨deps, hdeps⟩ := (isOk_exists _).mp hm
    have hdeps2 : List.mapM.loop Dependant.from_dict items [] = Except.ok deps := hdeps
    simp [ho, get_isDict _ _ _ hd, hit, hdeps, hdeps2, bind, Except.bind, pure, Except.pure,
      Except.isOk, Except.toBool]
  · simp [ho, bind, Except.bind, pure, Except.pure, Except.isOk, Except.toBool]

theorem bcExecutors_isOk (p : List (String × Value)) (c : WillContext)
    (hd : (pget p "executors" (.dict [])).isDict = true)
    (hprim : listOf entityOk (vget (pget p "executors" (.dict [])) "primary" (.list [])) = true)
    (hbd : (vget (pget p "executors" (.dict [])) "backup" (.dict [])).isDict = true)
    (hbl : listOf entityOk
      (vget (vget (pget p "executors" (.dict [])) "backup" (.dict [])) "list" (.list [])) = true) :
    (bcExecutors p c).isOk = true := by
  obtain ⟨pitems, hpit, hpmem⟩ := listOf_ok _ hprim
  obtain ⟨pex, hpex⟩ := (isOk_exists _).mp
    (mapM_isOk Executor.from_dict pitems (fun x hx => Executor_from_dict_isOk x (hpmem x hx)))
  have hpex2 : List.mapM.loop Executor.from_dict pitems [] = Except.ok pex := hpex
  obtain ⟨bitems, hbit, hbmem⟩ := listOf_ok _ hbl
  obtain ⟨bex, hbex⟩ := (isOk_exists _).mp
    (mapM_isOk Executor.from_dict bitems (fun x hx => Executor_from_dict_isOk x (hbmem x hx)))
  have hbex2 : List.mapM.loop Executor.from_dict bitems [] = Except.ok bex := hbex
  rw [bcExecutors]
  rw [get_isDict _ _ _ hd]
  cases hpart : c.partner with
  | some partner =>
    by_cases hm1 : pyEq (vget (pget p "executors" (.dict [])) "mode" (.str ""))
        (Value.str "partner_only") = true <;>
      by_cases hm2 : pyMem (vget (pget p "executors" (.dict [])) "mode" (.str ""))
          [Value.str "one", Value.str "two_joint", Value.str "two_joint_and_several"] = true <;>
        by_cases hb1 : pyEq (vget (vget (pget p "executors" (.dict [])) "backup" (.dict []))
            "mode" (.str "")) (Value.str "partner") = true <;>
          by_cases hb2 : pyMem (vget (vget (pget p "executors" (.dict [])) "backup" (.dict []))
              "mode" (.str "")) [Value.str "one", Value.str "two_joint",
              Value.str "two_joint_and_several"] = true <;>
            simp [hpart, hm1, hm2, hb1, hb2, hpit, hpex, hpex2, hbit, hbex, hbex2, get_isDict _ _ _ hd,
              get_isDict _ _ _ hbd, bind, Except.bind, pure, Except.pure,
              Except.isOk, Except.toBool]
  | none =>
    by_cases hm2 : pyMem (vget (pget p "executors" (.dict [])) "mode" (.str ""))
        [Value.str "one", Value.str "two_joint", Value.str "two_joint_and_several"] = true <;>
      by_cases hb2 : pyMem (vget (vget (pget p "executors" (.dict [])) "backup" (.dict []))
          "mode" (.str "")) [Value.str "one", Value.str "two_joint",
          Value.str "two_joint_and_several"] = true <;>
        simp [hpart, hm2, hb2, hpit, hpex, hpex2, hbit, hbex, hbex2, get_isDict _ _ _ hd,
          get_isDict _ _ _ hbd, bind, Except.bind, pure, Except.pure,
          Except.isOk, Except.toBool]

theorem bcGuardians_isOk (p : List (String × Value)) (c : WillContext)
    (hd : (pget p "guardianship" (.dict [])).isDict = true)
    (hg : entityOk (vget (pget p "guardianship" (.dict [])) "guardian" (.dict [])) = true)
    (hbg : entityOk (vget (pget p "guardianship" (.dict [])) "backup_guardian" (.dict [])) = true) :
    (bcGuardians p c).isOk = true := by
  obtain ⟨g, hgok⟩ := (isOk_exists _).mp (Guardian_from_dict_isOk _ hg)
  obtain ⟨bg, hbgok⟩ := (isOk_exists _).mp (Guardian_from_dict_isOk _ hbg)
  rw [bcGuardians]
  by_cases hmc : c.has_minor_children = true
  · by_cases hap : (vget (pget p "guardianship" (.dict [])) "appoint_guardian" Value.none).truthy = true
    · by_cases hbt : (vget (pget p "guardianship" (.dict [])) "backup_guardian" (.dict [])).truthy = true
      · by_cases hfn : (vget (vget (pget p "guardianship" (.dict [])) "backup_guardian" (.dict []))
            "full_name" Value.none).truthy = true
        · have hbgd : (vget (pget p "guardianship" (.dict [])) "backup_guardian" (.dict [])).isDict = true := by
            exact ((by simpa [entityOk, hbt] using hbg : _ ∧ _)).1
          simp [hmc, hap, hbt, hfn, hgok, hbgok, get_isDict _ _ _ hd,
            get_isDict _ _ _ hbgd, bind, Except.bind, pure, Except.pure,
            Except.isOk, Except.toBool]
        · have hbgd : (vget (pget p "guardianship" (.dict [])) "backup_guardian" (.dict [])).isDict = true := by
            exact ((by simpa [entityOk, hbt] using hbg : _ ∧ _)).1
          simp [hmc, hap, hbt, hfn, hgok, get_isDict _ _ _ hd,
            get_isDict _ _ _ hbgd, bind, Except.bind, pure, Except.pure,
            Except.isOk, Except.toBool]
      · simp [hmc, hap, hbt, hgok, get_isDict _ _ _ hd, bind, Except.bind,
          pure, Except.pure, Except.isOk, Except.toBool]
    · simp [hmc, hap, get_isDict _ _ _ hd, bind, Except.bind, pure, Except.pure,
        Except.isOk, Except.toBool]
  · simp [hmc, pure, Except.pure, Except.isOk, Except.toBool]

theorem bcBeneficiaries_isOk (p : List (String × Value)) (c : WillContext)
    (h : listOf benOk (pget p "beneficiaries" (.list [])) = true) :
    (bcBeneficiaries p c).isOk = true := by
  obtain ⟨items, hit, hmem⟩ := listOf_ok _ h
  obtain ⟨bs, hbs, hperc⟩ := mapIdxM_ok items 0 hmem
  have hloop := giftLoop_isOk bs hperc
    (c.specific_gifts, c.residue_beneficiaries, c.has_specific_gifts, c.percentage_sum)
  obtain ⟨out, hout⟩ := (isOk_exists _).mp hloop
  rw [bcBeneficiaries]
  have hout2 : giftLoop bs c.specific_gifts c.residue_beneficiaries
      c.has_specific_gifts c.percentage_sum = .ok out := hout
  simp [hit, hbs, hout2, bind, Except.bind, pure, Except.pure, Except.isOk, Except.toBool]

theorem bcDistribution_isOk (p : List (String × Value)) (c : WillContext)
    (h1 : (pget p "distribution" (.dict [])).isDict = true)
    (h2 : (pget p "survivorship" (.dict [])).isDict = true)
    (h3 : (pget p "substitution" (.dict [])).isDict = true) :
    (bcDistribution p c).isOk = true := by
  rw [bcDistribution]
  by_cases hr : pyEq (vget (pget p "substitution" (.dict [])) "rule" (.str ""))
      (Value.str "to_alternate_beneficiary") = true
  · cases hf : findBeneficiary c.beneficiaries
        (vget (pget p "substitution" (.dict [])) "alternate_beneficiary_id" Value.none) <;>
      simp [hr, hf, get_isDict _ _ _ h1, get_isDict _ _ _ h2, get_isDict _ _ _ h3,
        bind, Except.bind, pure, Except.pure, Except.isOk, Except.toBool]
  · simp [hr, get_isDict _ _ _ h1, get_isDict _ _ _ h2, get_isDict _ _ _ h3,
      bind, Except.bind, pure, Except.pure, Except.isOk, Except.toBool]

theorem bcMinorTrusts_isOk (p : List (String × Value)) (c : WillContext)
    (hd : (pget p "minor_trusts" (.dict [])).isDict = true)
    (htr : entityOk (vget (pget p "minor_trusts" (.dict [])) "trustee" (.dict [])) = true) :
    (bcMinorTrusts p c).isOk = true := by
  obtain ⟨t, htok⟩ := (isOk_exists _).mp (Executor_from_dict_isOk _ htr)
  rw [bcMinorTrusts]
  by_cases he : (vget (pget p "minor_trusts" (.dict [])) "enabled" Value.none).truthy = true
  · by_cases hnt : pyEq (vget (pget p "minor_trusts" (.dict [])) "trustee_mode" (.str ""))
        (Value.str "named_trustee") = true <;>
      simp [he, hnt, htok, get_isDict _ _ _ hd, bind, Except.bind, pure, Except.pure,
        Except.isOk, Except.toBool]
  · simp [he, get_isDict _ _ _ hd, bind, Except.bind, pure, Except.pure,
      Except.isOk, Except.toBool]

theorem bcFuneral_isOk (t : Value) (c : WillContext)
    (ht : t.isDict = true) (hf : (vget t "funeral" (.dict [])).isDict = true) :
    (bcFuneral t c).isOk = true := by
  rw [bcFuneral]
  by_cases he : (vget (vget t "funeral" (.dict [])) "enabled" Value.none).truthy = true <;>
    simp [he, get_isDict _ _ _ ht, get_isDict _ _ _ hf, bind, Except.bind,
      pure, Except.pure, Except.isOk, Except.toBool]

theorem bcDigitalAssets_isOk (t : Value) (c : WillContext)
    (ht : t.isDict = true) (hf : (vget t "digital_assets" (.dict [])).isDict = true) :
    (bcDigitalAssets t c).isOk = true := by
  rw [bcDigitalAssets]
  by_cases he : (vget (vget t "digital_assets" (.dict [])) "enabled" Value.none).truthy = true <;>
    simp [he, get_isDict _ _ _ ht, get_isDict _ _ _ hf, bind, Except.bind,
      pure, Except.pure, Except.isOk, Except.toBool]

theorem bcLifeSustaining_isOk (t : Value) (c : WillContext)
    (ht : t.isDict = true) (hf : (vget t "life_sustaining" (.dict [])).isDict = true) :
    (bcLifeSustaining t c).isOk = true := by
  rw [bcLifeSustaining]
  by_cases he : (vget (vget t "life_sustaining" (.dict [])) "enabled" Value.none).truthy = true <;>
    simp [he, get_isDict _ _ _ ht, get_isDict _ _ _ hf, bind, Except.bind,
      pure, Except.pure, Except.isOk, Except.toBool]

theorem bcPets_isOk (t : Value) (c : WillContext)
    (ht : t.isDict = true) (hp : (vget t "pets" (.dict [])).isDict = true)
    (hc : personDictOk (vget (vget t "pets" (.dict [])) "carer" (.dict [])) = true) :
    (bcPets t c).isOk = true := by
  have hcd : (vget (vget t "pets" (.dict [])) "carer" (.dict [])).isDict = true := by
    simp only [personDictOk, Bool.and_eq_true] at hc
    exact hc.1
  have hca : falsyOrDict
      (vget (vget (vget t "pets" (.dict [])) "carer" (.dict [])) "address" (.dict [])) = true := by
    simp only [personDictOk, Bool.and_eq_true] at hc
    exact hc.2
  obtain ⟨a, ha⟩ := (isOk_exists _).mp (Address_from_dict_isOk _ hca)
  rw [bcPets]
  by_cases he : (vget (vget t "pets" (.dict [])) "enabled" Value.none).truthy = true
  · by_cases hsel : pyEq (vget (vget t "pets" (.dict [])) "care_person_mode" (.str ""))
        (Value.str "select_beneficiary") = true
    · cases hf : findBeneficiary c.beneficiaries
          (vget (vget t "pets" (.dict [])) "care_beneficiary_id" Value.none) <;>
        simp [he, hsel, hf, get_isDict _ _ _ ht, get_isDict _ _ _ hp,
          bind, Except.bind, pure, Except.pure, Except.isOk, Except.toBool]
    · by_cases hnp : pyEq (vget (vget t "pets" (.dict [])) "care_person_mode" (.str ""))
          (Value.str "new_person") = true <;>
        simp [he, hsel, hnp, ha, get_isDict _ _ _ ht, get_isDict _ _ _ hp,
          get_isDict _ _ _ hcd, bind, Except.bind, pure, Except.pure,
          Except.isOk, Except.toBool]
  · simp [he, get_isDict _ _ _ ht, get_isDict _ _ _ hp, bind, Except.bind,
      pure, Except.pure, Except.isOk, Except.toBool]

theorem bcBusiness_isOk (t : Value) (c : WillContext)
    (ht : t.isDict = true) (hb : (vget t "business" (.dict [])).isDict = true)
    (hi : listOf biOk (vget (vget t "business" (.dict [])) "interests" (.list [])) = true) :
    (bcBusiness t c).isOk = true := by
  obtain ⟨items, hit, hmem⟩ := listOf_ok _ hi
  obtain ⟨ints, hints⟩ := (isOk_exists _).mp
    (mapM_isOk (fun i => BusinessInterest.from_dict i c.beneficiaries) items
      (fun x hx => BusinessInterest_from_dict_isOk x c.beneficiaries (hmem x hx)))
  have hints2 : List.mapM.loop (fun i => BusinessInterest.from_dict i c.beneficiaries)
      items [] = Except.ok ints := hints
  rw [bcBusiness]
  by_cases he : (vget (vget t "business" (.dict [])) "enabled" Value.none).truthy = true <;>
    simp [he, hit, hints, hints2, get_isDict _ _ _ ht, get_isDict _ _ _ hb,
      bind, Except.bind, pure, Except.pure, Except.isOk, Except.toBool]

theorem bcExclusions_isOk (t : Value) (c : WillContext)
    (ht : t.isDict = true) (hb : (vget t "exclusion" (.dict [])).isDict = true)
    (hi : listOf falsyOrDict (vget (vget t "exclusion" (.dict [])) "exclusions" (.list [])) = true) :
    (bcExclusions t c).isOk = true := by
  obtain ⟨items, hit, hmem⟩ := listOf_ok _ hi
  obtain ⟨exs, hexs⟩ := (isOk_exists _).mp
    (mapM_isOk Exclusion.from_dict items (fun x hx => Exclusion_from_dict_isOk x (hmem x hx)))
  have hexs2 : List.mapM.loop Exclusion.from_dict items [] = Except.ok exs := hexs
  rw [bcExclusions]
  by_cases he : (vget (vget t "exclusion" (.dict [])) "enabled" Value.none).truthy = true <;>
    simp [he, hit, hexs, hexs2, get_isDict _ _ _ ht, get_isDict _ _ _ hb,
      bind, Except.bind, pure, Except.pure, Except.isOk, Except.toBool]

theorem bcFinal_isOk (p : List (String × Value)) (c : WillContext)
    (h : (pget p "declarations" (.dict [])).isDict = true) :
    (bcFinal p c).isOk = true := by
  rw [bcFinal]
  simp [get_isDict _ _ _ h, bind, Except.bind, pure, Except.pure,
    Except.isOk, Except.toBool]

/-- A well-shaped payload: every sub-section that build_context inspects
is either absent or of the exact shape the source reads. Sections read
with .get (dependants, executors and its backup, guardianship,
distribution, survivorship, substitution, minor_trusts, toggles and its
per-topic sub-mappings, declarations) must be mappings whenever present,
falsy or not; iterated sections must be lists of suitable entries
(with absent-or-numeric beneficiary percentages); only entity-style
values fed to from_dict (will_maker, partner, guardian, ...) may also be
falsy, since from_dict returns a default on falsy input. -/
def WellShaped (p : List (String × Value)) : Bool :=
  entityOk (pget p "will_maker" (.dict [])) &&
  entityOk (pget p "partner" (.dict [])) &&
  listOf falsyOrDict (pget p "children" (.list [])) &&
  (pget p "dependants" (.dict [])).isDict &&
  listOf falsyOrDict (vget (pget p "dependants" (.dict [])) "other_dependants" (.list [])) &&
  (pget p "executors" (.dict [])).isDict &&
  listOf entityOk (vget (pget p "executors" (.dict [])) "primary" (.list [])) &&
  (vget (pget p "executors" (.dict [])) "backup" (.dict [])).isDict &&
  listOf entityOk (vget (vget (pget p "executors" (.dict [])) "backup" (.dict [])) "list" (.list [])) &&
  (pget p "guardianship" (.dict [])).isDict &&
  entityOk (vget (pget p "guardianship" (.dict [])) "guardian" (.dict [])) &&
  entityOk (vget (pget p "guardianship" (.dict [])) "backup_guardian" (.dict [])) &&
  listOf benOk (pget p "beneficiaries" (.list [])) &&
  (pget p "distribution" (.dict [])).isDict &&
  (pget p "survivorship" (.dict [])).isDict &&
  (pget p "substitution" (.dict [])).isDict &&
  (pget p "minor_trusts" (.dict [])).isDict &&
  entityOk (vget (pget p "minor_trusts" (.dict [])) "trustee" (.dict [])) &&
  (pget p "toggles" (.dict [])).isDict &&
  (vget (pget p "toggles" (.dict [])) "funeral" (.dict [])).isDict &&
  (vget (pget p "toggles" (.dict [])) "digital_assets" (.dict [])).isDict &&
  (vget (pget p "toggles" (.dict [])) "pets" (.dict [])).isDict &&
  personDictOk (vget (vget (pget p "toggles" (.dict [])) "pets" (.dict [])) "carer" (.dict [])) &&
  (vget (pget p "toggles" (.dict [])) "business" (.dict [])).isDict &&
  listOf biOk (vget (vget (pget p "toggles" (.dict [])) "business" (.dict [])) "interests" (.list [])) &&
  (vget (pget p "toggles" (.dict [])) "exclusion" (.dict [])).isDict &&
  listOf falsyOrDict (vget (vget (pget p "toggles" (.dict [])) "exclusion" (.dict [])) "exclusions" (.list [])) &&
  (vget (pget p "toggles" (.dict [])) "life_sustaining" (.dict [])).isDict &&
  (pget p "declarations" (.dict [])).isDict

/-- C3 amended: build_context terminates without raising on every
well-shaped payload; absent sub-sections default to empty collections,
but a present sub-value of the wrong shape — even a falsy one such as 0,
None or a list where a mapping is read — raises instead of defaulting,
as the counterexample (dependants = 0) shows. -/
theorem build_context_ok_of_well_shaped (payload : List (String × Value))
    (h : WellShaped payload = true) : (build_context payload).isOk = true := by
  simp only [WellShaped, Bool.and_eq_true] at h
  obtain ⟨⟨⟨⟨⟨⟨⟨⟨⟨⟨⟨⟨⟨⟨⟨⟨⟨⟨⟨⟨⟨⟨⟨⟨⟨⟨⟨⟨hA, hB⟩, hC⟩, hD1⟩, hD2⟩, hE1⟩, hE2⟩, hE3⟩, hE4⟩, hG1⟩, hG2⟩, hG3⟩, hBen⟩, hDi1⟩, hDi2⟩, hDi3⟩, hM1⟩, hM2⟩, hT⟩, hTf⟩, hTd⟩, hTp1⟩, hTp2⟩, hTb1⟩, hTb2⟩, hTe1⟩, hTe2⟩, hTl⟩, hDecl⟩ := h
  obtain ⟨c1, e1⟩ := (isOk_exists _).mp (bcWillMaker_isOk payload {} hA)
  obtain ⟨c2, e2⟩ := (isOk_exists _).mp (bcPartner_isOk payload c1 hB)
  obtain ⟨c3, e3⟩ := (isOk_exists _).mp (bcChildren_isOk payload c2 hC)
  obtain ⟨c4, e4⟩ := (isOk_exists _).mp (bcDependants_isOk payload c3 hD1 hD2)
  obtain ⟨c5, e5⟩ := (isOk_exists _).mp (bcExecutors_isOk payload c4 hE1 hE2 hE3 hE4)
  obtain ⟨c6, e6⟩ := (isOk_exists _).mp (bcGuardians_isOk payload c5 hG1 hG2 hG3)
  obtain ⟨c7, e7⟩ := (isOk_exists _).mp (bcBeneficiaries_isOk payload c6 hBen)
  obtain ⟨c8, e8⟩ := (isOk_exists _).mp (bcDistribution_isOk payload c7 hDi1 hDi2 hDi3)
  obtain ⟨c9, e9⟩ := (isOk_exists _).mp (bcMinorTrusts_isOk payload c8 hM1 hM2)
  obtain ⟨c10, e10⟩ := (isOk_exists _).mp (bcFuneral_isOk _ c9 hT hTf)
  obtain ⟨c11, e11⟩ := (isOk_exists _).mp (bcDigitalAssets_isOk _ c10 hT hTd)
  obtain ⟨c12, e12⟩ := (isOk_exists _).mp (bcPets_isOk _ c11 hT hTp1 hTp2)
  obtain ⟨c13, e13⟩ := (isOk_exists _).mp (bcBusiness_isOk _ c12 hT hTb1 hTb2)
  obtain ⟨c14, e14⟩ := (isOk_exists _).mp (bcExclusions_isOk _ c13 hT hTe1 hTe2)
  obtain ⟨c15, e15⟩ := (isOk_exists _).mp (bcLifeSustaining_isOk _ c14 hT hTl)
  rw [build_context]
  simp only [bind, Except.bind, pure, Except.pure, e1, e2, e3, e4, e5, e6, e7, e8,
    e9, e10, e11, e12, e13, e14, e15]
  exact bcFinal_isOk payload c15 hDecl

/-- Witness for build_context_ok_of_well_shaped: a payload with only an
eligibility-style scalar entry and every optional sub-section absent is
well shaped and builds without raising. -/
theorem build_context_ok_witness :
    WellShaped [("has_children", Value.bool false)] = true ∧
    (build_context [("has_children", Value.bool false)]).isOk = true :=
  ⟨by decide, build_context_ok_of_well_shaped _ (by decide)⟩

/-! ## Timestamp (in)variance of the two-pass compile (C2) -/

/-- C2 counterexample: with invariant mode enabled and an empty document
plan, changing only the generation timestamp (10:00 UTC versus 11:00 UTC
on the same day) changes the final PDF bytes, because the full footer of
the second pass embeds the formatted timestamp. -/
theorem timestamp_changes_final_bytes :
    generate_pdf_with_footer {} [] ⟨2024, 12, 25, 10, 0, 0⟩ ≠
      generate_pdf_with_footer {} [] ⟨2024, 12, 25, 11, 0, 0⟩ := by
  intro heq
  simp only [generate_pdf_with_footer, buildStory, List.mapM_nil, bind, Except.bind,
    pure, Except.pure, docBuild, rl_config_invariant, if_true, List.map_nil,
    List.flatten_nil, List.nil_append, Except.ok.injEq, Prod.mk.injEq] at heq
  obtain ⟨hbytes, -⟩ := heq
  simp only [bytesOfString, String.data_append, List.map_append, List.map_cons,
    List.cons_append, List.nil_append, List.append_assoc, List.cons.injEq,
    true_and] at hbytes
  have hflen :
      ((format_timestamp_for_footer ⟨2024, 12, 25, 10, 0, 0⟩).data.map Char.toNat).length =
      ((format_timestamp_for_footer ⟨2024, 12, 25, 11, 0, 0⟩).data.map Char.toNat).length := by
    decide
  have hf := List.append_inj_left hbytes hflen
  exact absurd hf (by decide)

/-- C2 amended: with invariant mode enabled, the first-pass bytes do not
depend on the generation timestamp at all (for every pair of timestamps,
not only footer-equal ones), and whenever two timestamps format to the
same footer text (the footer format has minute resolution) the two runs
also produce identical final bytes and hash; timestamps that format
differently change the embedded footer and hence the final bytes, as the
counterexample shows. -/
theorem timestamp_invariance (ctx : WillContext) (plan : List DocumentPlanItem)
    (ts1 ts2 : Timestamp) :
    firstPassBytes ctx plan ts1 = firstPassBytes ctx plan ts2 ∧
    (format_timestamp_for_footer ts1 = format_timestamp_for_footer ts2 →
      generate_pdf_with_footer ctx plan ts1 = generate_pdf_with_footer ctx plan ts2) := by
  constructor
  · rfl
  · intro h
    simp only [generate_pdf_with_footer, docBuild, rl_config_invariant, if_true, h]

/-- Witness for timestamp_invariance: timestamps one second apart format
identically, so the compile results coincide. -/
theorem timestamp_invariance_witness :
    firstPassBytes {} [] ⟨2024, 12, 25, 10, 0, 0⟩ =
      firstPassBytes {} [] ⟨2024, 12, 25, 11, 0, 0⟩ ∧
    generate_pdf_with_footer {} [] ⟨2024, 12, 25, 10, 0, 0⟩ =
      generate_pdf_with_footer {} [] ⟨2024, 12, 25, 10, 0, 1⟩ :=
  ⟨(timestamp_invariance {} [] ⟨2024, 12, 25, 10, 0, 0⟩ ⟨2024, 12, 25, 11, 0, 0⟩).1,
    (timestamp_invariance {} [] ⟨2024, 12, 25, 10, 0, 0⟩ ⟨2024, 12, 25, 10, 0, 1⟩).2
      (by decide)⟩

/-! ## Hash verification (C9 support) -/

/-- verify_pdf_integrity is exactly the SHA-256 hex comparison. -/
theorem verify_pdf_integrity_iff (pdf_bytes : List Nat) (expected_hash : String) :
    verify_pdf_integrity pdf_bytes expected_hash = true ↔
      sha256hex pdf_bytes = expected_hash := by
  simp [verify_pdf_integrity]

/-- The (bytes, hash) pair returned by generate_pdf_with_footer always
verifies. -/
theorem generate_hash_roundtrip (ctx : WillContext) (plan : List DocumentPlanItem)
    (ts : Timestamp) (pdf_bytes : List Nat) (final_hash : String)
    (h : generate_pdf_with_footer ctx plan ts = .ok (pdf_bytes, final_hash)) :
    verify_pdf_integrity pdf_bytes final_hash = true := by
  rw [generate_pdf_with_footer] at h
  cases hs : buildStory plan with
  | error e => rw [hs] at h; cases h
  | ok story =>
    rw [hs] at h
    simp only [bind, Except.bind, pure, Except.pure, Except.ok.injEq, Prod.mk.injEq] at h
    obtain ⟨hb, hh⟩ := h
    subst hb
    subst hh
    simp [verify_pdf_integrity]

/-- The metadata record used by generate_pdf_with_footer at the fixed
sample timestamp, for exercising the round-trip lemma. -/
def rtMeta : PdfMeta :=
  { title := "Last Will and Testament", author := "Will Generator",
    creator := "Will Generator", creationDate := ⟨2024, 12, 25, 10, 0, 0⟩,
    modDate := ⟨2024, 12, 25, 10, 0, 0⟩ }

/-- The footer text generate_pdf_with_footer assembles for an empty plan
at the fixed sample timestamp. -/
def rtFooter : String :=
  "Generated: " ++ format_timestamp_for_footer ⟨2024, 12, 25, 10, 0, 0⟩ ++
    " | Hash: " ++ short_hash (sha256hex (docBuild true [] rtMeta .simple)) 16

/-- Witness for generate_hash_roundtrip at the empty plan. -/
theorem generate_hash_roundtrip_witness :
    verify_pdf_integrity (docBuild true [] rtMeta (.full rtFooter))
      (sha256hex (docBuild true [] rtMeta (.full rtFooter))) = true :=
  generate_hash_roundtrip {} [] ⟨2024, 12, 25, 10, 0, 0⟩ _ _ rfl
